import Mathlib

/-!
# LVGL colour core (`src/misc/lv_color.h`): shallow embedding and verified properties

Machine integers are natural numbers; every C operation whose result is stored in a
fixed-width type is followed by an explicit reduction modulo `2 ^ width`.
The two build variants of `lv_color_16_16_mix` (selected in C by the preprocessor symbol
`LV_USE_ALTERNATE_MIX_ROUTINE_FOR_RGB565_COLOR_FORMAT`) are embedded as two functions and a
selector taking the configuration value as an argument.
-/

namespace LvColor

/-! ## Fixed-width arithmetic -/

/-- Conversion to `uint8_t`. -/
def u8 (x : Nat) : Nat := x % 256

/-- Conversion to `uint16_t`. -/
def u16 (x : Nat) : Nat := x % 65536

/-- Conversion to `uint32_t`. -/
def u32 (x : Nat) : Nat := x % 4294967296

/-- Left shift of a `uint32_t` value: bits shifted past bit 31 are lost. -/
def shl32 (x k : Nat) : Nat := u32 (x <<< k)

/-- Addition of `uint32_t` values, wrapping modulo `2 ^ 32`. -/
def add32 (a b : Nat) : Nat := u32 (a + b)

/-- Subtraction of `uint32_t` values, wrapping modulo `2 ^ 32`. -/
def sub32 (a b : Nat) : Nat := u32 (u32 a + (4294967296 - u32 b))

/-- Multiplication of `uint32_t` values, wrapping modulo `2 ^ 32`. -/
def mul32 (a b : Nat) : Nat := u32 (a * b)

/-- Conversion to `int32_t`: the value is reduced to the two's complement range
`-2 ^ 31 .. 2 ^ 31 - 1`. -/
def i32 (x : Int) : Int := (x + 2147483648) % 4294967296 - 2147483648

/-! ## Opacity constants (`enum _lv_opa_t`, `LV_OPA_MIN`, `LV_OPA_MAX`) -/

def LV_OPA_TRANSP : Nat := 0
def LV_OPA_0 : Nat := 0
def LV_OPA_10 : Nat := 25
def LV_OPA_20 : Nat := 51
def LV_OPA_30 : Nat := 76
def LV_OPA_40 : Nat := 102
def LV_OPA_50 : Nat := 127
def LV_OPA_60 : Nat := 153
def LV_OPA_70 : Nat := 178
def LV_OPA_80 : Nat := 204
def LV_OPA_90 : Nat := 229
def LV_OPA_100 : Nat := 255
def LV_OPA_COVER : Nat := 255

def LV_OPA_MIN : Nat := 2
def LV_OPA_MAX : Nat := 253

/-- The named percentage levels of `enum _lv_opa_t` in declaration order:
`LV_OPA_0`, `LV_OPA_10`, ..., `LV_OPA_100`. -/
def lv_opa_levels : List Nat :=
  [LV_OPA_0, LV_OPA_10, LV_OPA_20, LV_OPA_30, LV_OPA_40, LV_OPA_50, LV_OPA_60, LV_OPA_70,
    LV_OPA_80, LV_OPA_90, LV_OPA_100]

/-- The C definition `LV_OPA_MIX2(a1, a2)`: `((int32_t)(a1) * (a2)) >> 8`, the shift of a signed
value being arithmetic (rounding towards minus infinity). -/
def LV_OPA_MIX2 (a1 a2 : Int) : Int := (i32 (i32 a1 * a2)) >>> (8 : Nat)

/-- The C definition `LV_OPA_MIX3(a1, a2, a3)`: `((int32_t)(a1) * (a2) * (a3)) >> 16`. -/
def LV_OPA_MIX3 (a1 a2 a3 : Int) : Int := (i32 (i32 (i32 a1 * a2) * a3)) >>> (16 : Nat)

/-! ## Colour types -/

/-- The C struct `lv_color_t`: three `uint8_t` fields stored in the order blue, green, red. -/
structure lv_color_t where
  blue : Nat
  green : Nat
  red : Nat
deriving DecidableEq, Repr

/-- The C struct `lv_color32_t`: four `uint8_t` fields stored in the order
blue, green, red, alpha. -/
structure lv_color32_t where
  blue : Nat
  green : Nat
  red : Nat
  alpha : Nat
deriving DecidableEq, Repr

/-! ## Colour format tags (`enum _lv_color_format_t`) -/

def LV_COLOR_FORMAT_UNKNOWN : Nat := 0
def LV_COLOR_FORMAT_RAW : Nat := 0x01
def LV_COLOR_FORMAT_RAW_ALPHA : Nat := 0x02
def LV_COLOR_FORMAT_L8 : Nat := 0x06
def LV_COLOR_FORMAT_I1 : Nat := 0x07
def LV_COLOR_FORMAT_I2 : Nat := 0x08
def LV_COLOR_FORMAT_I4 : Nat := 0x09
def LV_COLOR_FORMAT_I8 : Nat := 0x0A
def LV_COLOR_FORMAT_A8 : Nat := 0x0E
def LV_COLOR_FORMAT_RGB565 : Nat := 0x12
def LV_COLOR_FORMAT_RGB565A8 : Nat := 0x14
def LV_COLOR_FORMAT_RGB888 : Nat := 0x0F
def LV_COLOR_FORMAT_ARGB8888 : Nat := 0x10
def LV_COLOR_FORMAT_XRGB8888 : Nat := 0x11
def LV_COLOR_FORMAT_A1 : Nat := 0x0B
def LV_COLOR_FORMAT_A2 : Nat := 0x0C
def LV_COLOR_FORMAT_A4 : Nat := 0x0D

/-- The enumerator `LV_COLOR_FORMAT_NATIVE`, selected by the preprocessor from the value of
`LV_COLOR_DEPTH`; for a depth other than 8, 16, 24, 32 no enumerator is declared. -/
def LV_COLOR_FORMAT_NATIVE (LV_COLOR_DEPTH : Nat) : Option Nat :=
  if LV_COLOR_DEPTH = 8 then some LV_COLOR_FORMAT_L8
  else if LV_COLOR_DEPTH = 16 then some LV_COLOR_FORMAT_RGB565
  else if LV_COLOR_DEPTH = 24 then some LV_COLOR_FORMAT_RGB888
  else if LV_COLOR_DEPTH = 32 then some LV_COLOR_FORMAT_XRGB8888
  else none

/-- The enumerator `LV_COLOR_FORMAT_NATIVE_WITH_ALPHA`, selected by the preprocessor from the
value of `LV_COLOR_DEPTH`; the branch for depth 8 declares none. -/
def LV_COLOR_FORMAT_NATIVE_WITH_ALPHA (LV_COLOR_DEPTH : Nat) : Option Nat :=
  if LV_COLOR_DEPTH = 8 then none
  else if LV_COLOR_DEPTH = 16 then some LV_COLOR_FORMAT_RGB565A8
  else if LV_COLOR_DEPTH = 24 then some LV_COLOR_FORMAT_ARGB8888
  else if LV_COLOR_DEPTH = 32 then some LV_COLOR_FORMAT_ARGB8888
  else none

/-- The C definition `LV_COLOR_FORMAT_IS_ALPHA_ONLY(cf)`. -/
def LV_COLOR_FORMAT_IS_ALPHA_ONLY (cf : Nat) : Bool :=
  decide (cf ≥ LV_COLOR_FORMAT_A1) && decide (cf ≤ LV_COLOR_FORMAT_A8)

/-- The C definition `LV_COLOR_FORMAT_IS_INDEXED(cf)`. -/
def LV_COLOR_FORMAT_IS_INDEXED (cf : Nat) : Bool :=
  decide (cf ≥ LV_COLOR_FORMAT_I1) && decide (cf ≤ LV_COLOR_FORMAT_I8)

/-- The C definition `LV_COLOR_INDEXED_PALETTE_SIZE(cf)`: a chain of conditional expressions. -/
def LV_COLOR_INDEXED_PALETTE_SIZE (cf : Nat) : Nat :=
  if cf = LV_COLOR_FORMAT_I1 then 2 else
  if cf = LV_COLOR_FORMAT_I2 then 4 else
  if cf = LV_COLOR_FORMAT_I4 then 16 else
  if cf = LV_COLOR_FORMAT_I8 then 256 else 0

/-! ## Format size -/

/-- The function `lv_color_format_get_size`. The body of `lv_color_format_get_bpp` is not part
of the header, so it is taken as the argument `get_bpp`; its `uint8_t` result is promoted to
`int`, 7 is added, the sum is shifted, and the result is converted to `uint8_t`. -/
def lv_color_format_get_size (get_bpp : Nat → Nat) (cf : Nat) : Nat :=
  u8 ((u8 (get_bpp cf) + 7) >>> 3)

/-! ## Construction and equality -/

/-- The function `lv_color_to_int`: the three bytes of the struct read in storage order. -/
def lv_color_to_int (c : lv_color_t) : Nat :=
  u32 (c.blue + (c.green <<< 8) + (c.red <<< 16))

/-- The function `lv_color_eq`. -/
def lv_color_eq (c1 c2 : lv_color_t) : Bool :=
  decide (lv_color_to_int c1 = lv_color_to_int c2)

/-- The 32-bit word read through `*((uint32_t *)&c)` from a `lv_color32_t`: its four bytes in
storage order, least significant first. -/
def lv_color32_word (c : lv_color32_t) : Nat :=
  c.blue + c.green * 256 + c.red * 65536 + c.alpha * 16777216

/-- The function `lv_color32_eq`: comparison of the two structs as 32-bit words. -/
def lv_color32_eq (c1 c2 : lv_color32_t) : Bool :=
  decide (lv_color32_word c1 = lv_color32_word c2)

/-- The function `lv_color_hex`. -/
def lv_color_hex (c : Nat) : lv_color_t :=
  { red := u8 ((c >>> 16) &&& 0xff)
    green := u8 ((c >>> 8) &&& 0xff)
    blue := u8 ((c >>> 0) &&& 0xff) }

/-- The function `lv_color_make`; the arguments are `uint8_t`. -/
def lv_color_make (r g b : Nat) : lv_color_t :=
  { red := u8 r, green := u8 g, blue := u8 b }

/-- The function `lv_color32_make`; the arguments are `uint8_t`. -/
def lv_color32_make (r g b a : Nat) : lv_color32_t :=
  { red := u8 r, green := u8 g, blue := u8 b, alpha := u8 a }

/-- The function `lv_color_hex3`. -/
def lv_color_hex3 (c : Nat) : lv_color_t :=
  lv_color_make (u8 (((c >>> 4) &&& 0xF0) ||| ((c >>> 8) &&& 0xF)))
    (u8 ((c &&& 0xF0) ||| ((c &&& 0xF0) >>> 4)))
    (u8 ((c &&& 0xF) ||| shl32 (c &&& 0xF) 4))

/-! ## Channels of a packed RGB565 value (`lv_color16_t`: blue 5 bits, green 6, red 5) -/

/-- Bits 0..4 of a packed RGB565 value. -/
def blue16 (c : Nat) : Nat := c % 32

/-- Bits 5..10 of a packed RGB565 value. -/
def green16 (c : Nat) : Nat := c / 32 % 64

/-- Bits 11..15 of a packed RGB565 value. -/
def red16 (c : Nat) : Nat := c / 2048 % 32

/-! ## Mixing two RGB565 colours -/

def NEUTRAL_MASK : Nat := 0x07E0F81F
def NEUTRAL_MASK_1 : Nat := NEUTRAL_MASK <<< 1
def NEUTRAL_MASK_2 : Nat := NEUTRAL_MASK <<< 2
def NEUTRAL_MASK_3 : Nat := NEUTRAL_MASK <<< 3
def NEUTRAL_MASK_4 : Nat := NEUTRAL_MASK <<< 4

/-- The `switch(mix)` statement of the table variant of `lv_color_16_16_mix`. A case that
executes `return` yields `Sum.inl` of the returned value; a case that ends in `break` yields
`Sum.inr (fg, bg)`. When no case label matches, control reaches the end of the switch with the
initial values `fg = 0`, `bg = 0`. -/
def lv_color_16_16_mix_switch (c1 c2 mix : Nat) : Sum Nat (Nat × Nat) :=
  match mix with
  | 0 =>
    Sum.inl c2
  | 1 =>
    let fg := c1
    let fg := fg ||| shl32 fg 16
    let fg := fg &&& NEUTRAL_MASK
    let bg := c2
    let bg := bg ||| shl32 bg 16
    let bg := bg &&& NEUTRAL_MASK
    let bg := sub32 (shl32 bg 5) bg
    Sum.inr (fg, bg)
  | 2 =>
    let fg := u32 (c1 <<< 1)
    let fg := fg ||| shl32 fg 16
    let fg := fg &&& NEUTRAL_MASK_1
    let bg := c2
    let bg := bg ||| shl32 bg 16
    let bg := bg &&& NEUTRAL_MASK
    let bg := sub32 (shl32 bg 5) (shl32 bg 1)
    Sum.inr (fg, bg)
  | 3 =>
    let fg := c1
    let fg := fg ||| shl32 fg 16
    let fg := fg &&& NEUTRAL_MASK
    let fg := add32 fg (shl32 fg 1)
    let bg := c2
    let bg := bg ||| shl32 bg 16
    let bg := bg &&& NEUTRAL_MASK
    let bg := sub32 (sub32 (shl32 bg 5) (shl32 bg 1)) bg
    Sum.inr (fg, bg)
  | 4 =>
    let fg := u32 (c1 <<< 2)
    let fg := fg ||| shl32 fg 16
    let fg := fg &&& NEUTRAL_MASK_2
    let bg := u32 (c2 <<< 2)
    let bg := bg ||| shl32 bg 16
    let bg := bg &&& NEUTRAL_MASK_2
    let bg := sub32 (shl32 bg 3) bg
    Sum.inr (fg, bg)
  | 5 =>
    let fg := c1
    let fg := fg ||| shl32 fg 16
    let fg := fg &&& NEUTRAL_MASK
    let fg := add32 fg (shl32 fg 2)
    let bg := c2
    let bg := bg ||| shl32 bg 16
    let bg := bg &&& NEUTRAL_MASK
    let bg := add32 bg (add32 (add32 (shl32 bg 1) (shl32 bg 3)) (shl32 bg 4))
    Sum.inr (fg, bg)
  | 6 =>
    let fg := u32 (c1 <<< 1)
    let fg := fg ||| shl32 fg 16
    let fg := fg &&& NEUTRAL_MASK_1
    let fg := add32 fg (shl32 fg 1)
    let bg := u32 (c2 <<< 1)
    let bg := bg ||| shl32 bg 16
    let bg := bg &&& NEUTRAL_MASK_1
    let bg := add32 bg (add32 (shl32 bg 2) (shl32 bg 3))
    Sum.inr (fg, bg)
  | 7 =>
    let fg := c1
    let fg := fg ||| shl32 fg 16
    let fg := fg &&& NEUTRAL_MASK
    let fg := sub32 (shl32 fg 3) fg
    let bg := c2
    let bg := bg ||| shl32 bg 16
    let bg := bg &&& NEUTRAL_MASK
    let bg := add32 bg (add32 (shl32 bg 3) (shl32 bg 4))
    Sum.inr (fg, bg)
  | 8 =>
    let fg := u32 (c1 <<< 3)
    let fg := fg ||| shl32 fg 16
    let fg := fg &&& NEUTRAL_MASK_3
    let bg := u32 (c2 <<< 3)
    let bg := bg ||| shl32 bg 16
    let bg := bg &&& NEUTRAL_MASK_3
    let bg := add32 bg (shl32 bg 1)
    Sum.inr (fg, bg)
  | 9 =>
    let fg := c1
    let fg := fg ||| shl32 fg 16
    let fg := fg &&& NEUTRAL_MASK
    let fg := add32 fg (shl32 fg 3)
    let bg := c2
    let bg := bg ||| shl32 bg 16
    let bg := bg &&& NEUTRAL_MASK
    let bg := sub32 (add32 (shl32 bg 4) (shl32 bg 3)) bg
    Sum.inr (fg, bg)
  | 10 =>
    let fg := u32 (c1 <<< 1)
    let fg := fg ||| shl32 fg 16
    let fg := fg &&& NEUTRAL_MASK_1
    let fg := add32 fg (shl32 fg 2)
    let bg := c2
    let bg := bg ||| shl32 bg 16
    let bg := bg &&& NEUTRAL_MASK
    let bg := add32 bg (add32 (add32 (shl32 bg 4) (shl32 bg 2)) bg)
    Sum.inr (fg, bg)
  | 11 =>
    let fg := c1
    let fg := fg ||| shl32 fg 16
    let fg := fg &&& NEUTRAL_MASK
    let fg := add32 fg (add32 (shl32 fg 3) (shl32 fg 1))
    let bg := c2
    let bg := bg ||| shl32 bg 16
    let bg := bg &&& NEUTRAL_MASK
    let bg := add32 bg (add32 (shl32 bg 4) (shl32 bg 2))
    Sum.inr (fg, bg)
  | 12 =>
    let fg := u32 (c1 <<< 2)
    let fg := fg ||| shl32 fg 16
    let fg := fg &&& NEUTRAL_MASK_2
    let fg := add32 fg (shl32 fg 1)
    let bg := u32 (c2 <<< 2)
    let bg := bg ||| shl32 bg 16
    let bg := bg &&& NEUTRAL_MASK_2
    let bg := add32 bg (shl32 bg 2)
    Sum.inr (fg, bg)
  | 13 =>
    let fg := c1
    let fg := fg ||| shl32 fg 16
    let fg := fg &&& NEUTRAL_MASK
    let fg := add32 fg (add32 (shl32 fg 3) (shl32 fg 2))
    let bg := c2
    let bg := bg ||| shl32 bg 16
    let bg := bg &&& NEUTRAL_MASK
    let bg := add32 bg (add32 (shl32 bg 1) (shl32 bg 4))
    Sum.inr (fg, bg)
  | 14 =>
    let fg := u32 (c1 <<< 1)
    let fg := fg ||| shl32 fg 16
    let fg := fg &&& NEUTRAL_MASK_1
    let fg := sub32 (shl32 fg 3) fg
    let bg := u32 (c2 <<< 1)
    let bg := bg ||| shl32 bg 16
    let bg := bg &&& NEUTRAL_MASK_1
    let bg := add32 bg (shl32 bg 3)
    Sum.inr (fg, bg)
  | 15 =>
    let fg := c1
    let fg := fg ||| shl32 fg 16
    let fg := fg &&& NEUTRAL_MASK
    let fg := sub32 (shl32 fg 4) fg
    let bg := c2
    let bg := bg ||| shl32 bg 16
    let bg := bg &&& NEUTRAL_MASK
    let bg := add32 bg (shl32 bg 4)
    Sum.inr (fg, bg)
  | 16 =>
    let fg := u32 (c1 <<< 4)
    let fg := fg ||| shl32 fg 16
    let fg := fg &&& NEUTRAL_MASK_4
    let bg := u32 (c2 <<< 4)
    let bg := bg ||| shl32 bg 16
    let bg := bg &&& NEUTRAL_MASK_4
    Sum.inr (fg, bg)
  | 17 =>
    let fg := c1
    let fg := fg ||| shl32 fg 16
    let fg := fg &&& NEUTRAL_MASK
    let fg := add32 fg (shl32 fg 4)
    let bg := c2
    let bg := bg ||| shl32 bg 16
    let bg := bg &&& NEUTRAL_MASK
    let bg := sub32 (shl32 bg 4) bg
    Sum.inr (fg, bg)
  | 18 =>
    let fg := u32 (c1 <<< 1)
    let fg := fg ||| shl32 fg 16
    let fg := fg &&& NEUTRAL_MASK_1
    let fg := add32 fg (shl32 fg 3)
    let bg := u32 (c2 <<< 1)
    let bg := bg ||| shl32 bg 16
    let bg := bg &&& NEUTRAL_MASK_1
    let bg := sub32 (shl32 bg 3) bg
    Sum.inr (fg, bg)
  | 19 =>
    let fg := c1
    let fg := fg ||| shl32 fg 16
    let fg := fg &&& NEUTRAL_MASK
    let fg := add32 fg (add32 (shl32 fg 1) (shl32 fg 4))
    let bg := c2
    let bg := bg ||| shl32 bg 16
    let bg := bg &&& NEUTRAL_MASK
    let bg := add32 bg (add32 (shl32 bg 3) (shl32 bg 2))
    Sum.inr (fg, bg)
  | 20 =>
    let fg := u32 (c1 <<< 2)
    let fg := fg ||| shl32 fg 16
    let fg := fg &&& NEUTRAL_MASK_2
    let fg := add32 fg (shl32 fg 2)
    let bg := u32 (c2 <<< 2)
    let bg := bg ||| shl32 bg 16
    let bg := bg &&& NEUTRAL_MASK_2
    let bg := add32 bg (shl32 bg 1)
    Sum.inr (fg, bg)
  | 21 =>
    let fg := c1
    let fg := fg ||| shl32 fg 16
    let fg := fg &&& NEUTRAL_MASK
    let fg := add32 fg (add32 (shl32 fg 4) (shl32 fg 2))
    let bg := c2
    let bg := bg ||| shl32 bg 16
    let bg := bg &&& NEUTRAL_MASK
    let bg := add32 bg (add32 (shl32 bg 3) (shl32 bg 1))
    Sum.inr (fg, bg)
  | 22 =>
    let fg := c1
    let fg := fg ||| shl32 fg 16
    let fg := fg &&& NEUTRAL_MASK
    let fg := add32 fg (add32 (add32 (shl32 fg 4) (shl32 fg 2)) fg)
    let bg := u32 (c2 <<< 1)
    let bg := bg ||| shl32 bg 16
    let bg := bg &&& NEUTRAL_MASK_1
    let bg := add32 bg (shl32 bg 2)
    Sum.inr (fg, bg)
  | 23 =>
    let fg := c1
    let fg := fg ||| shl32 fg 16
    let fg := fg &&& NEUTRAL_MASK
    let fg := sub32 (add32 (shl32 fg 4) (shl32 fg 3)) fg
    let bg := c2
    let bg := bg ||| shl32 bg 16
    let bg := bg &&& NEUTRAL_MASK
    let bg := add32 bg (shl32 bg 3)
    Sum.inr (fg, bg)
  | 24 =>
    let fg := u32 (c1 <<< 3)
    let fg := fg ||| shl32 fg 16
    let fg := fg &&& NEUTRAL_MASK_3
    let fg := add32 fg (shl32 fg 1)
    let bg := u32 (c2 <<< 3)
    let bg := bg ||| shl32 bg 16
    let bg := bg &&& NEUTRAL_MASK_3
    Sum.inr (fg, bg)
  | 25 =>
    let fg := c1
    let fg := fg ||| shl32 fg 16
    let fg := fg &&& NEUTRAL_MASK
    let fg := add32 fg (add32 (shl32 fg 3) (shl32 fg 4))
    let bg := c2
    let bg := bg ||| shl32 bg 16
    let bg := bg &&& NEUTRAL_MASK
    let bg := sub32 (shl32 bg 3) bg
    Sum.inr (fg, bg)
  | 26 =>
    let fg := u32 (c1 <<< 1)
    let fg := fg ||| shl32 fg 16
    let fg := fg &&& NEUTRAL_MASK_1
    let fg := add32 fg (add32 (shl32 fg 2) (shl32 fg 3))
    let bg := u32 (c2 <<< 1)
    let bg := bg ||| shl32 bg 16
    let bg := bg &&& NEUTRAL_MASK_1
    let bg := add32 bg (shl32 bg 1)
    Sum.inr (fg, bg)
  | 27 =>
    let fg := c1
    let fg := fg ||| shl32 fg 16
    let fg := fg &&& NEUTRAL_MASK
    let fg := sub32 (sub32 (shl32 fg 5) (shl32 fg 2)) fg
    let bg := c2
    let bg := bg ||| shl32 bg 16
    let bg := bg &&& NEUTRAL_MASK
    let bg := add32 bg (shl32 bg 2)
    Sum.inr (fg, bg)
  | 28 =>
    let fg := u32 (c1 <<< 2)
    let fg := fg ||| shl32 fg 16
    let fg := fg &&& NEUTRAL_MASK_2
    let fg := sub32 (shl32 fg 3) fg
    let bg := u32 (c2 <<< 2)
    let bg := bg ||| shl32 bg 16
    let bg := bg &&& NEUTRAL_MASK_2
    Sum.inr (fg, bg)
  | 29 =>
    let fg := c1
    let fg := fg ||| shl32 fg 16
    let fg := fg &&& NEUTRAL_MASK
    let fg := sub32 (sub32 (shl32 fg 5) (shl32 fg 1)) fg
    let bg := c2
    let bg := bg ||| shl32 bg 16
    let bg := bg &&& NEUTRAL_MASK
    let bg := add32 bg (shl32 bg 1)
    Sum.inr (fg, bg)
  | 30 =>
    let fg := u32 (c1 <<< 1)
    let fg := fg ||| shl32 fg 16
    let fg := fg &&& NEUTRAL_MASK_1
    let fg := sub32 (shl32 fg 4) fg
    let bg := u32 (c2 <<< 1)
    let bg := bg ||| shl32 bg 16
    let bg := bg &&& NEUTRAL_MASK_1
    Sum.inr (fg, bg)
  | 31 =>
    let fg := c1
    let fg := fg ||| shl32 fg 16
    let fg := fg &&& NEUTRAL_MASK
    let fg := sub32 (shl32 fg 5) fg
    let bg := c2
    let bg := bg ||| shl32 bg 16
    let bg := bg &&& NEUTRAL_MASK
    Sum.inr (fg, bg)
  | 32 =>
    Sum.inl c1
  | _ => Sum.inr (0, 0)

/-- The function `lv_color_16_16_mix`, build variant
`LV_USE_ALTERNATE_MIX_ROUTINE_FOR_RGB565_COLOR_FORMAT == 1` (shift/add table). -/
def lv_color_16_16_mix_alternate (c1 c2 mix : Nat) : Nat :=
  let mix := u8 ((u16 (mix + 4)) >>> 3)
  match lv_color_16_16_mix_switch c1 c2 mix with
  | Sum.inl ret => ret
  | Sum.inr (fg, bg) =>
    let bg := add32 bg fg
    let bg := bg >>> 5
    let bg := bg &&& NEUTRAL_MASK
    let ret := u16 ((bg >>> 16) ||| bg)
    ret

/-- The function `lv_color_16_16_mix`, build variant
`LV_USE_ALTERNATE_MIX_ROUTINE_FOR_RGB565_COLOR_FORMAT != 1` (packed multiply). -/
def lv_color_16_16_mix_packed (c1 c2 mix : Nat) : Nat :=
  if mix = 255 then c1 else
  if mix = 0 then c2 else
  let mix := u8 ((u32 (u32 mix + 4)) >>> 3)
  let bg := (u32 (c2 ||| shl32 c2 16)) &&& 0x7E0F81F
  let fg := (u32 (c1 ||| shl32 c1 16)) &&& 0x7E0F81F
  let result := (add32 ((mul32 (sub32 fg bg) mix) >>> 5) bg) &&& 0x7E0F81F
  let ret := u16 ((u16 (result >>> 16)) ||| result)
  ret

/-- The function `lv_color_16_16_mix`; the first argument is the value of the configuration
symbol `LV_USE_ALTERNATE_MIX_ROUTINE_FOR_RGB565_COLOR_FORMAT` that selects the body. -/
def lv_color_16_16_mix (LV_USE_ALTERNATE_MIX_ROUTINE_FOR_RGB565_COLOR_FORMAT : Nat)
    (c1 c2 mix : Nat) : Nat :=
  if LV_USE_ALTERNATE_MIX_ROUTINE_FOR_RGB565_COLOR_FORMAT = 1 then
    lv_color_16_16_mix_alternate c1 c2 mix
  else
    lv_color_16_16_mix_packed c1 c2 mix

/-! ## Reference definitions for the blend

These follow the wording of the specification (per-channel linear interpolation with the
fixed-point rounding) and are what the two embedded variants are compared with. -/

/-- The three channels of a packed RGB565 value moved to the lanes kept by `0x07E0F81F`:
blue at bit 0, red at bit 11, green at bit 21. -/
def spread (c : Nat) : Nat := blue16 c + 2048 * red16 c + 2097152 * green16 c

/-- Reference blend of one channel: foreground `f` weighted by `m`, background `b` weighted by
`32 - m`, divided by 32 rounding down. -/
def mix_channel (f b m : Nat) : Nat := (f * m + b * (32 - m)) / 32

/-- Reference blend of two RGB565 values with multiplier `m`: every channel blended on its
own and the three results packed again. -/
def mix_reference (c1 c2 m : Nat) : Nat :=
  mix_channel (blue16 c1) (blue16 c2) m + 32 * mix_channel (green16 c1) (green16 c2) m
    + 2048 * mix_channel (red16 c1) (red16 c2) m

/-! ## Bitwise operations as arithmetic -/

theorem and_two_pow_mul (x n a : Nat) : x &&& (2 ^ a * n) = 2 ^ a * ((x / 2 ^ a) &&& n) := by
  apply Nat.eq_of_testBit_eq
  intro i
  rw [Nat.testBit_and, Nat.testBit_mul_pow_two, Nat.testBit_mul_pow_two, Nat.testBit_and,
    ← Nat.shiftRight_eq_div_pow, Nat.testBit_shiftRight]
  by_cases h : a ≤ i
  · have e : a + (i - a) = i := by omega
    simp [h, e]
  · simp [h]

theorem or_mod_two_pow (a b n : Nat) : (a ||| b) % 2 ^ n = (a % 2 ^ n) ||| (b % 2 ^ n) := by
  apply Nat.eq_of_testBit_eq
  intro i
  simp only [Nat.testBit_mod_two_pow, Nat.testBit_or]
  by_cases h : i < n <;> simp [h]

/-- Masking with `0x07E0F81F` keeps bits 0..4, 11..15 and 21..26. -/
theorem and_neutral_mask (x : Nat) :
    x &&& 0x07E0F81F = x % 32 + 2048 * (x / 2048 % 32) + 2097152 * (x / 2097152 % 64) := by
  have hm : (0x07E0F81F : Nat) = 2 ^ 21 * (2 ^ 6 - 1) ||| (2 ^ 11 * (2 ^ 5 - 1) ||| (2 ^ 5 - 1)) := by
    decide
  have h1 : 2 ^ 11 * (x / 2 ^ 11 % 2 ^ 5) ||| x % 2 ^ 5
      = 2 ^ 11 * (x / 2 ^ 11 % 2 ^ 5) + x % 2 ^ 5 :=
    (Nat.mul_add_lt_is_or (by omega) _).symm
  have h2 : 2 ^ 21 * (x / 2 ^ 21 % 2 ^ 6) ||| (2 ^ 11 * (x / 2 ^ 11 % 2 ^ 5) + x % 2 ^ 5)
      = 2 ^ 21 * (x / 2 ^ 21 % 2 ^ 6) + (2 ^ 11 * (x / 2 ^ 11 % 2 ^ 5) + x % 2 ^ 5) :=
    (Nat.mul_add_lt_is_or (by omega) _).symm
  rw [hm, Nat.and_or_distrib_left, Nat.and_or_distrib_left, and_two_pow_mul, and_two_pow_mul,
    Nat.and_pow_two_sub_one_eq_mod, Nat.and_pow_two_sub_one_eq_mod, Nat.and_pow_two_sub_one_eq_mod,
    h1, h2]
  norm_num
  omega


theorem spread_le (c : Nat) : spread c ≤ 0x07E0F81F := by
  unfold spread blue16 red16 green16
  omega

theorem lanes_of_replicated (c t : Nat) (hc : c < 65536) :
    (65536 * t + c) % 32 = c % 32 ∧ (65536 * t + c) / 2048 % 32 = c / 2048 % 32 ∧
      (65536 * t + c) / 2097152 % 64 = t / 32 % 64 := by
  have h1 : (65536 * t + c) / 2048 = 32 * t + c / 2048 := by omega
  have h2 : (65536 * t + c) / 2097152 = t / 32 := by omega
  rw [h1, h2]
  omega

/-- Replicating a 16-bit colour, pre-shifted by `k`, into both halves of a 32-bit word and
masking with the shifted mask gives the spread colour times `2 ^ k`. -/
theorem replicate_mask (k c : Nat) (hk : k ≤ 4) (hc : c < 65536) :
    (u32 (c <<< k) ||| shl32 (u32 (c <<< k)) 16) &&& (NEUTRAL_MASK <<< k) = 2 ^ k * spread c := by
  have hor : u32 (c <<< k) ||| shl32 (u32 (c <<< k)) 16
      = 2 ^ (16 + k) * (c % 2 ^ (16 - k)) + 2 ^ k * c := by
    rw [Nat.mul_add_lt_is_or, Nat.or_comm]
    · unfold shl32 u32
      simp only [Nat.shiftLeft_eq]
      congr 1
      · interval_cases k <;> omega
      · interval_cases k <;> omega
    · interval_cases k <;> omega
  have hdiv : (2 ^ (16 + k) * (c % 2 ^ (16 - k)) + 2 ^ k * c) / 2 ^ k
      = 65536 * (c % 2 ^ (16 - k)) + c := by
    interval_cases k <;> norm_num <;> omega
  have ht : c % 2 ^ (16 - k) / 32 % 64 = c / 32 % 64 := by
    interval_cases k <;> norm_num <;> omega
  obtain ⟨l1, l2, l3⟩ := lanes_of_replicated c (c % 2 ^ (16 - k)) hc
  rw [hor, Nat.shiftLeft_eq, Nat.mul_comm NEUTRAL_MASK, and_two_pow_mul, hdiv]
  unfold NEUTRAL_MASK
  rw [and_neutral_mask, l1, l2, l3, ht]
  unfold spread blue16 red16 green16
  rfl


theorem replicate_mask_zero (c : Nat) (hc : c < 65536) :
    (c ||| shl32 c 16) &&& NEUTRAL_MASK = spread c := by
  have h := replicate_mask 0 c (by omega) hc
  have e : u32 (c <<< 0) = c := by
    unfold u32
    rw [Nat.shiftLeft_zero]
    omega
  rw [e] at h
  simpa using h

theorem replicate_mask_packed (c : Nat) (hc : c < 65536) :
    u32 (c ||| shl32 c 16) &&& 0x7E0F81F = spread c := by
  have hlt : c ||| shl32 c 16 < 2 ^ 32 := by
    apply Nat.or_lt_two_pow
    · omega
    · unfold shl32 u32
      omega
  have e : u32 (c ||| shl32 c 16) = c ||| shl32 c 16 := by
    unfold u32
    exact Nat.mod_eq_of_lt hlt
  rw [e]
  exact replicate_mask_zero c hc

/-- Folding the upper half of a lane-separated word onto the lower half rebuilds RGB565. -/
theorem fold_lanes (b r g : Nat) (hb : b < 32) (hr : r < 32) (hg : g < 64) :
    u16 (((b + 2048 * r + 2097152 * g) >>> 16) ||| (b + 2048 * r + 2097152 * g))
      = b + 32 * g + 2048 * r ∧
    u16 (u16 ((b + 2048 * r + 2097152 * g) >>> 16) ||| (b + 2048 * r + 2097152 * g))
      = b + 32 * g + 2048 * r := by
  have hs : (b + 2048 * r + 2097152 * g) >>> 16 = 32 * g := by
    rw [Nat.shiftRight_eq_div_pow]
    omega
  have hu : u16 (32 * g) = 32 * g := by
    unfold u16
    omega
  have hor : (32 * g % 2 ^ 16) ||| ((b + 2048 * r + 2097152 * g) % 2 ^ 16)
      = b + 32 * g + 2048 * r := by
    have e1 : 32 * g % 2 ^ 16 = 2 ^ 5 * g := by omega
    have e2 : (b + 2048 * r + 2097152 * g) % 2 ^ 16 = 2 ^ 11 * r ||| b := by
      rw [← Nat.mul_add_lt_is_or (by omega)]
      omega
    have e3 : 2 ^ 5 * g ||| b = 2 ^ 5 * g + b := (Nat.mul_add_lt_is_or (by omega) _).symm
    have e4 : 2 ^ 11 * r ||| (2 ^ 5 * g + b) = 2 ^ 11 * r + (2 ^ 5 * g + b) :=
      (Nat.mul_add_lt_is_or (by omega) _).symm
    rw [e1, e2, ← Nat.or_assoc, Nat.or_comm (2 ^ 5 * g), Nat.or_assoc, e3, e4]
    omega
  rw [hs, hu]
  have key : u16 (32 * g ||| (b + 2048 * r + 2097152 * g)) = b + 32 * g + 2048 * r := by
    unfold u16
    rw [show (65536 : Nat) = 2 ^ 16 from rfl, or_mod_two_pow]
    exact hor
  exact ⟨key, key⟩


theorem lane_sum_le (f b m n : Nat) (hf : f ≤ n) (hb : b ≤ n) (hm : m ≤ 32) :
    f * m + b * (32 - m) ≤ 32 * n := by
  have h1 : f * m ≤ n * m := Nat.mul_le_mul_right m hf
  have h2 : b * (32 - m) ≤ n * (32 - m) := Nat.mul_le_mul_right (32 - m) hb
  have h3 : n * m + n * (32 - m) = 32 * n := by
    rw [← Nat.mul_add, Nat.mul_comm]
    congr 1
    omega
  omega

theorem mix_channel_le (f b m n : Nat) (hf : f ≤ n) (hb : b ≤ n) (hm : m ≤ 32) :
    mix_channel f b m ≤ n := by
  have h := lane_sum_le f b m n hf hb hm
  unfold mix_channel
  omega

/-- Weighted sum of two spread colours, lane by lane. -/
theorem spread_weighted (c1 c2 m : Nat) :
    spread c1 * m + spread c2 * (32 - m)
      = (blue16 c1 * m + blue16 c2 * (32 - m))
        + 2048 * (red16 c1 * m + red16 c2 * (32 - m))
        + 2097152 * (green16 c1 * m + green16 c2 * (32 - m)) := by
  unfold spread
  ring

/-- Dividing a lane-separated sum by 32 divides every lane by 32: the remainders of the red
and green lanes fall into the unused bits below them. An extra multiple of `2 ^ 27` lies above
every lane. -/
theorem lanes_div (tb tr tg e : Nat) (hb : tb < 1024) (hr : tr < 1024) (hg : tg < 2048) :
    ((tb + 2048 * tr + 2097152 * tg) / 32 + 134217728 * e) &&& 0x07E0F81F
      = tb / 32 + 2048 * (tr / 32) + 2097152 * (tg / 32) := by
  rw [and_neutral_mask]
  have h0 : (tb + 2048 * tr + 2097152 * tg) / 32 = tb / 32 + 64 * tr + 65536 * tg := by omega
  have h1 : (tb / 32 + 64 * tr + 65536 * tg + 134217728 * e) / 2048
      = tr / 32 + 32 * tg + 65536 * e := by omega
  have h2 : (tb / 32 + 64 * tr + 65536 * tg + 134217728 * e) / 2097152 = tg / 32 + 64 * e := by
    omega
  rw [h0, h1, h2]
  omega

/-- The packed arithmetic `(((fg - bg) * m) >> 5) + bg` in `uint32_t`: up to a multiple of
`2 ^ 27` it is the weighted sum divided by 32, whatever wraps around in between. -/
theorem packed_arith (p1 p2 m : Nat) (h1 : p1 < 134217728) (h2 : p2 < 134217728) (hm : m ≤ 32)
    (hs : p1 * m + p2 * (32 - m) < 4294967296) :
    ∃ e, add32 (mul32 (sub32 p1 p2) m >>> 5) p2
      = (p1 * m + p2 * (32 - m)) / 32 + 134217728 * e := by
  unfold add32 mul32 sub32 u32
  rw [Nat.shiftRight_eq_div_pow]
  obtain ⟨e0, he0, hd⟩ : ∃ e0, e0 ≤ 1 ∧
      (p1 % 4294967296 + (4294967296 - p2 % 4294967296)) % 4294967296 + p2
        = p1 + 4294967296 * e0 := by
    by_cases h : p2 ≤ p1
    · exact ⟨0, by omega, by omega⟩
    · exact ⟨1, by omega, by omega⟩
  generalize (p1 % 4294967296 + (4294967296 - p2 % 4294967296)) % 4294967296 = d at hd ⊢
  have hmul : d * m + p2 * m = p1 * m + 4294967296 * (e0 * m) := by
    have := congrArg (fun t => t * m) hd
    simp only at this
    rw [Nat.add_mul, Nat.add_mul, Nat.mul_assoc] at this
    exact this
  have hp2 : p2 * m + p2 * (32 - m) = 32 * p2 := by
    rw [← Nat.mul_add, Nat.mul_comm]
    congr 1
    omega
  generalize d * m = dm at hmul ⊢
  generalize p2 * m = a2 at hmul hp2 hs ⊢
  generalize p1 * m = a1 at hmul hs ⊢
  generalize p2 * (32 - m) = b2 at hp2 hs ⊢
  generalize e0 * m = em at hmul
  have hx : ∃ e, e ≤ 1 ∧ dm % 4294967296 + 32 * p2 = a1 + b2 + 4294967296 * e := by
    by_cases hc : dm % 4294967296 + 32 * p2 < 4294967296
    · exact ⟨0, by omega, by omega⟩
    · exact ⟨1, by omega, by omega⟩
  obtain ⟨e, he, hx⟩ := hx
  refine ⟨e, ?_⟩
  generalize dm % 4294967296 = x at hx
  omega


theorem replicate_mask_one (c : Nat) (hc : c < 65536) :
    (u32 (c <<< 1) ||| shl32 (u32 (c <<< 1)) 16) &&& NEUTRAL_MASK_1 = 2 * spread c :=
  replicate_mask 1 c (by omega) hc

theorem replicate_mask_two (c : Nat) (hc : c < 65536) :
    (u32 (c <<< 2) ||| shl32 (u32 (c <<< 2)) 16) &&& NEUTRAL_MASK_2 = 4 * spread c :=
  replicate_mask 2 c (by omega) hc

theorem replicate_mask_three (c : Nat) (hc : c < 65536) :
    (u32 (c <<< 3) ||| shl32 (u32 (c <<< 3)) 16) &&& NEUTRAL_MASK_3 = 8 * spread c :=
  replicate_mask 3 c (by omega) hc

theorem replicate_mask_four (c : Nat) (hc : c < 65536) :
    (u32 (c <<< 4) ||| shl32 (u32 (c <<< 4)) 16) &&& NEUTRAL_MASK_4 = 16 * spread c :=
  replicate_mask 4 c (by omega) hc

/-- Every `break` case of the switch leaves `fg = m * spread c1` and
`bg = (32 - m) * spread c2`: the shift/add sequences are the multiplications they are
commented to be, and none of them wraps around. -/
theorem switch_breaks (c1 c2 m : Nat) (hc1 : c1 < 65536) (hc2 : c2 < 65536)
    (hm1 : 1 ≤ m) (hm2 : m ≤ 31) :
    lv_color_16_16_mix_switch c1 c2 m = Sum.inr (spread c1 * m, spread c2 * (32 - m)) := by
  have b1 := spread_le c1
  have b2 := spread_le c2
  interval_cases m <;>
    simp only [lv_color_16_16_mix_switch, replicate_mask_zero c1 hc1, replicate_mask_zero c2 hc2,
      replicate_mask_one c1 hc1, replicate_mask_one c2 hc2, replicate_mask_two c1 hc1,
      replicate_mask_two c2 hc2, replicate_mask_three c1 hc1, replicate_mask_three c2 hc2,
      replicate_mask_four c1 hc1, replicate_mask_four c2 hc2] <;>
    generalize spread c1 = p1 at b1 ⊢ <;>
    generalize spread c2 = p2 at b2 ⊢ <;>
    (try simp only [add32, sub32, shl32, u32, Nat.shiftLeft_eq]) <;>
    congr 2 <;>
    omega


theorem blue16_lt (c : Nat) : blue16 c < 32 := by
  unfold blue16
  omega

theorem green16_lt (c : Nat) : green16 c < 64 := by
  unfold green16
  omega

theorem red16_lt (c : Nat) : red16 c < 32 := by
  unfold red16
  omega

/-- A 16-bit value is the packing of its three channels. -/
theorem pack_channels (c : Nat) (hc : c < 65536) :
    blue16 c + 32 * green16 c + 2048 * red16 c = c := by
  unfold blue16 green16 red16
  omega

theorem mix_channel_zero (f b : Nat) : mix_channel f b 0 = b := by
  unfold mix_channel
  omega

theorem mix_channel_full (f b : Nat) : mix_channel f b 32 = f := by
  unfold mix_channel
  omega

theorem mix_reference_zero (c1 c2 : Nat) (hc2 : c2 < 65536) : mix_reference c1 c2 0 = c2 := by
  unfold mix_reference
  rw [mix_channel_zero, mix_channel_zero, mix_channel_zero]
  exact pack_channels c2 hc2

theorem mix_reference_full (c1 c2 : Nat) (hc1 : c1 < 65536) : mix_reference c1 c2 32 = c1 := by
  unfold mix_reference
  rw [mix_channel_full, mix_channel_full, mix_channel_full]
  exact pack_channels c1 hc1

/-- The channels of the reference blend are the blended channels. -/
theorem mix_reference_channels (c1 c2 m : Nat) (hm : m ≤ 32) :
    blue16 (mix_reference c1 c2 m) = mix_channel (blue16 c1) (blue16 c2) m ∧
    green16 (mix_reference c1 c2 m) = mix_channel (green16 c1) (green16 c2) m ∧
    red16 (mix_reference c1 c2 m) = mix_channel (red16 c1) (red16 c2) m := by
  have hb := mix_channel_le (blue16 c1) (blue16 c2) m 31
    (by have := blue16_lt c1; omega) (by have := blue16_lt c2; omega) hm
  have hg := mix_channel_le (green16 c1) (green16 c2) m 63
    (by have := green16_lt c1; omega) (by have := green16_lt c2; omega) hm
  have hr := mix_channel_le (red16 c1) (red16 c2) m 31
    (by have := red16_lt c1; omega) (by have := red16_lt c2; omega) hm
  unfold mix_reference
  generalize mix_channel (blue16 c1) (blue16 c2) m = x at hb ⊢
  generalize mix_channel (green16 c1) (green16 c2) m = y at hg ⊢
  generalize mix_channel (red16 c1) (red16 c2) m = z at hr ⊢
  unfold blue16 green16 red16
  omega

/-- Common tail of both variants: the weighted lane sum divided by 32 (plus any multiple of
`2 ^ 27`), masked and folded, is the reference blend. -/
theorem finish_lanes (c1 c2 m e : Nat) (hm : m ≤ 32) :
    u16 (((((spread c1 * m + spread c2 * (32 - m)) / 32 + 134217728 * e) &&& 0x07E0F81F) >>> 16)
        ||| (((spread c1 * m + spread c2 * (32 - m)) / 32 + 134217728 * e) &&& 0x07E0F81F))
      = mix_reference c1 c2 m ∧
    u16 (u16 ((((spread c1 * m + spread c2 * (32 - m)) / 32 + 134217728 * e) &&& 0x07E0F81F)
          >>> 16)
        ||| (((spread c1 * m + spread c2 * (32 - m)) / 32 + 134217728 * e) &&& 0x07E0F81F))
      = mix_reference c1 c2 m := by
  have tb := lane_sum_le (blue16 c1) (blue16 c2) m 31
    (by have := blue16_lt c1; omega) (by have := blue16_lt c2; omega) hm
  have tr := lane_sum_le (red16 c1) (red16 c2) m 31
    (by have := red16_lt c1; omega) (by have := red16_lt c2; omega) hm
  have tg := lane_sum_le (green16 c1) (green16 c2) m 63
    (by have := green16_lt c1; omega) (by have := green16_lt c2; omega) hm
  rw [spread_weighted, lanes_div _ _ _ e (by omega) (by omega) (by omega)]
  exact fold_lanes _ _ _ (by omega) (by omega) (by omega)

theorem weighted_lt (c1 c2 m : Nat) (hm : m ≤ 32) :
    spread c1 * m + spread c2 * (32 - m) < 4294967296 := by
  have tb := lane_sum_le (blue16 c1) (blue16 c2) m 31
    (by have := blue16_lt c1; omega) (by have := blue16_lt c2; omega) hm
  have tr := lane_sum_le (red16 c1) (red16 c2) m 31
    (by have := red16_lt c1; omega) (by have := red16_lt c2; omega) hm
  have tg := lane_sum_le (green16 c1) (green16 c2) m 63
    (by have := green16_lt c1; omega) (by have := green16_lt c2; omega) hm
  rw [spread_weighted]
  omega

/-- The packed-multiply variant computes the reference blend with `m = (w + 4) / 8`. -/
theorem packed_eq_reference (c1 c2 w : Nat) (hc1 : c1 < 65536) (hc2 : c2 < 65536)
    (hw : w < 256) :
    lv_color_16_16_mix_packed c1 c2 w = mix_reference c1 c2 ((w + 4) / 8) := by
  unfold lv_color_16_16_mix_packed
  by_cases h255 : w = 255
  · subst h255
    simp only [if_true]
    exact (mix_reference_full c1 c2 hc1).symm
  by_cases h0 : w = 0
  · subst h0
    simp only [if_true, if_neg h255]
    exact (mix_reference_zero c1 c2 hc2).symm
  have hm : u8 (u32 (u32 w + 4) >>> 3) = (w + 4) / 8 := by
    unfold u8 u32
    rw [Nat.shiftRight_eq_div_pow]
    omega
  have hm32 : (w + 4) / 8 ≤ 32 := by omega
  simp only [if_neg h255, if_neg h0, hm, replicate_mask_packed c1 hc1,
    replicate_mask_packed c2 hc2]
  have s1 := spread_le c1
  have s2 := spread_le c2
  obtain ⟨e, he⟩ := packed_arith (spread c1) (spread c2) ((w + 4) / 8) (by omega) (by omega)
    hm32 (weighted_lt c1 c2 _ hm32)
  rw [he]
  exact (finish_lanes c1 c2 _ e hm32).2

/-- The table variant computes the reference blend with `m = (w + 4) / 8`. -/
theorem alternate_eq_reference (c1 c2 w : Nat) (hc1 : c1 < 65536) (hc2 : c2 < 65536)
    (hw : w < 256) :
    lv_color_16_16_mix_alternate c1 c2 w = mix_reference c1 c2 ((w + 4) / 8) := by
  unfold lv_color_16_16_mix_alternate
  have hm : u8 (u16 (w + 4) >>> 3) = (w + 4) / 8 := by
    unfold u8 u16
    rw [Nat.shiftRight_eq_div_pow]
    omega
  have hm32 : (w + 4) / 8 ≤ 32 := by omega
  simp only [hm]
  generalize (w + 4) / 8 = m at hm32 ⊢
  by_cases h0 : m = 0
  · subst h0
    simp only [lv_color_16_16_mix_switch]
    exact (mix_reference_zero c1 c2 hc2).symm
  by_cases h32 : m = 32
  · subst h32
    simp only [lv_color_16_16_mix_switch]
    exact (mix_reference_full c1 c2 hc1).symm
  rw [switch_breaks c1 c2 m hc1 hc2 (by omega) (by omega)]
  have hlt := weighted_lt c1 c2 m hm32
  have hadd : add32 (spread c2 * (32 - m)) (spread c1 * m)
      = spread c1 * m + spread c2 * (32 - m) := by
    unfold add32 u32
    omega
  simp only [hadd, Nat.shiftRight_eq_div_pow _ 5, NEUTRAL_MASK]
  have h := (finish_lanes c1 c2 m 0 hm32).1
  simpa using h


theorem mix_channel_int (f b m : Nat) (hm : m ≤ 32) :
    (mix_channel f b m : Int) = (b : Int) + Int.fdiv (((f : Int) - (b : Int)) * (m : Int)) 32 := by
  unfold mix_channel
  rw [Int.fdiv_eq_ediv _ (by norm_num)]
  have h : b * (32 - m) + b * m = 32 * b := by
    rw [← Nat.mul_add, Nat.mul_comm]
    congr 1
    omega
  have e : ((f : Int) - (b : Int)) * (m : Int) = ((f * m : Nat) : Int) - ((b * m : Nat) : Int) := by
    push_cast
    ring
  rw [e]
  generalize f * m = x
  generalize b * m = y at h
  generalize b * (32 - m) = z at h
  omega

theorem mix_channel_self (f m : Nat) (hm : m ≤ 32) : mix_channel f f m = f := by
  unfold mix_channel
  have h : f * m + f * (32 - m) = 32 * f := by
    rw [← Nat.mul_add, Nat.mul_comm]
    congr 1
    omega
  omega

theorem mix_channel_half (f b : Nat) : mix_channel f b 16 = (f + b) / 2 := by
  unfold mix_channel
  omega

/-- The selector computes the reference blend whichever body is configured. -/
theorem mix_eq_reference (u c1 c2 w : Nat) (hc1 : c1 < 65536) (hc2 : c2 < 65536)
    (hw : w < 256) :
    lv_color_16_16_mix u c1 c2 w = mix_reference c1 c2 ((w + 4) / 8) := by
  unfold lv_color_16_16_mix
  split
  · exact alternate_eq_reference c1 c2 w hc1 hc2 hw
  · exact packed_eq_reference c1 c2 w hc1 hc2 hw

/-! ## Verified claims -/

/-- C1: for all 16-bit colours `c1`, `c2` and every weight `w` in 0..255 the table variant
(the 33-case switch on `m = (w + 4) >> 3`) and the packed-multiply variant of
`lv_color_16_16_mix` return the same value; hence the function does not depend on the value
of the configuration symbol. -/
theorem C1_mix_variants_agree (c1 c2 w : Nat) (hc1 : c1 < 65536) (hc2 : c2 < 65536)
    (hw : w < 256) :
    lv_color_16_16_mix_alternate c1 c2 w = lv_color_16_16_mix_packed c1 c2 w ∧
    ∀ u v : Nat, lv_color_16_16_mix u c1 c2 w = lv_color_16_16_mix v c1 c2 w := by
  refine ⟨?_, fun u v => ?_⟩
  · rw [alternate_eq_reference c1 c2 w hc1 hc2 hw, packed_eq_reference c1 c2 w hc1 hc2 hw]
  · rw [mix_eq_reference u c1 c2 w hc1 hc2 hw, mix_eq_reference v c1 c2 w hc1 hc2 hw]

/-- Witness for C1 at `c1 = 0xFC00`, `c2 = 0x1234`, `w = 100`. -/
theorem C1_mix_variants_agree_witness :
    lv_color_16_16_mix_alternate 0xFC00 0x1234 100 = lv_color_16_16_mix_packed 0xFC00 0x1234 100 ∧
    ∀ u v : Nat, lv_color_16_16_mix u 0xFC00 0x1234 100 = lv_color_16_16_mix v 0xFC00 0x1234 100 :=
  C1_mix_variants_agree 0xFC00 0x1234 100 (by decide) (by decide) (by decide)

/-- C2: for all 16-bit `c1`, `c2` and `w` in 0..255, with `m = (w + 4) >> 3` computed without
8-bit wraparound, every RGB565 channel of the packed-multiply `lv_color_16_16_mix c1 c2 w` is
`b + floor(((f - b) * m) / 32)` over the integers (floor toward minus infinity), where `f` and
`b` are the same channel of `c1` and `c2`; equivalently it is `(f * m + b * (32 - m)) / 32`.
Each channel of the result depends on that channel of the inputs alone. -/
theorem C2_mix_packed_channels (c1 c2 w : Nat) (hc1 : c1 < 65536) (hc2 : c2 < 65536)
    (hw : w < 256) :
    ((blue16 (lv_color_16_16_mix_packed c1 c2 w) : Int)
        = (blue16 c2 : Int)
          + Int.fdiv (((blue16 c1 : Int) - (blue16 c2 : Int)) * (((w + 4) >>> 3 : Nat) : Int)) 32 ∧
      (green16 (lv_color_16_16_mix_packed c1 c2 w) : Int)
        = (green16 c2 : Int)
          + Int.fdiv (((green16 c1 : Int) - (green16 c2 : Int)) * (((w + 4) >>> 3 : Nat) : Int)) 32 ∧
      (red16 (lv_color_16_16_mix_packed c1 c2 w) : Int)
        = (red16 c2 : Int)
          + Int.fdiv (((red16 c1 : Int) - (red16 c2 : Int)) * (((w + 4) >>> 3 : Nat) : Int)) 32) ∧
    (blue16 (lv_color_16_16_mix_packed c1 c2 w)
        = (blue16 c1 * ((w + 4) >>> 3) + blue16 c2 * (32 - ((w + 4) >>> 3))) / 32 ∧
      green16 (lv_color_16_16_mix_packed c1 c2 w)
        = (green16 c1 * ((w + 4) >>> 3) + green16 c2 * (32 - ((w + 4) >>> 3))) / 32 ∧
      red16 (lv_color_16_16_mix_packed c1 c2 w)
        = (red16 c1 * ((w + 4) >>> 3) + red16 c2 * (32 - ((w + 4) >>> 3))) / 32) ∧
    (w + 4) >>> 3 ≤ 32 := by
  have hs : (w + 4) >>> 3 = (w + 4) / 8 := Nat.shiftRight_eq_div_pow _ 3
  have hm : (w + 4) / 8 ≤ 32 := by omega
  obtain ⟨hb, hg, hr⟩ := mix_reference_channels c1 c2 ((w + 4) / 8) hm
  rw [hs, packed_eq_reference c1 c2 w hc1 hc2 hw, hb, hg, hr]
  refine ⟨⟨mix_channel_int _ _ _ hm, mix_channel_int _ _ _ hm, mix_channel_int _ _ _ hm⟩,
    ⟨rfl, rfl, rfl⟩, hm⟩


/-- Witness for C2 at `c1 = 0xFC00`, `c2 = 0x1234`, `w = 100`. -/
theorem C2_mix_packed_channels_witness :
    ((blue16 (lv_color_16_16_mix_packed 0xFC00 0x1234 100) : Int)
        = (blue16 0x1234 : Int)
          + Int.fdiv (((blue16 0xFC00 : Int) - (blue16 0x1234 : Int))
              * (((100 + 4) >>> 3 : Nat) : Int)) 32 ∧
      (green16 (lv_color_16_16_mix_packed 0xFC00 0x1234 100) : Int)
        = (green16 0x1234 : Int)
          + Int.fdiv (((green16 0xFC00 : Int) - (green16 0x1234 : Int))
              * (((100 + 4) >>> 3 : Nat) : Int)) 32 ∧
      (red16 (lv_color_16_16_mix_packed 0xFC00 0x1234 100) : Int)
        = (red16 0x1234 : Int)
          + Int.fdiv (((red16 0xFC00 : Int) - (red16 0x1234 : Int))
              * (((100 + 4) >>> 3 : Nat) : Int)) 32) ∧
    (blue16 (lv_color_16_16_mix_packed 0xFC00 0x1234 100)
        = (blue16 0xFC00 * ((100 + 4) >>> 3) + blue16 0x1234 * (32 - ((100 + 4) >>> 3))) / 32 ∧
      green16 (lv_color_16_16_mix_packed 0xFC00 0x1234 100)
        = (green16 0xFC00 * ((100 + 4) >>> 3) + green16 0x1234 * (32 - ((100 + 4) >>> 3))) / 32 ∧
      red16 (lv_color_16_16_mix_packed 0xFC00 0x1234 100)
        = (red16 0xFC00 * ((100 + 4) >>> 3) + red16 0x1234 * (32 - ((100 + 4) >>> 3))) / 32) ∧
    (100 + 4) >>> 3 ≤ 32 :=
  C2_mix_packed_channels 0xFC00 0x1234 100 (by decide) (by decide) (by decide)

/-- C3: in both build variants, `lv_color_16_16_mix c1 c2 255` is exactly `c1` and
`lv_color_16_16_mix c1 c2 0` is exactly `c2`, for all `c1`, `c2`. -/
theorem C3_mix_endpoints (u c1 c2 : Nat) :
    lv_color_16_16_mix u c1 c2 255 = c1 ∧ lv_color_16_16_mix u c1 c2 0 = c2 ∧
    lv_color_16_16_mix_alternate c1 c2 255 = c1 ∧ lv_color_16_16_mix_alternate c1 c2 0 = c2 ∧
    lv_color_16_16_mix_packed c1 c2 255 = c1 ∧ lv_color_16_16_mix_packed c1 c2 0 = c2 := by
  have a1 : lv_color_16_16_mix_alternate c1 c2 255 = c1 := rfl
  have a0 : lv_color_16_16_mix_alternate c1 c2 0 = c2 := rfl
  have p1 : lv_color_16_16_mix_packed c1 c2 255 = c1 := rfl
  have p0 : lv_color_16_16_mix_packed c1 c2 0 = c2 := rfl
  refine ⟨?_, ?_, a1, a0, p1, p0⟩
  · unfold lv_color_16_16_mix
    split
    · exact a1
    · exact p1
  · unfold lv_color_16_16_mix
    split
    · exact a0
    · exact p0

/-- C4: in both build variants, blending a 16-bit colour with itself gives that colour back,
for every weight `w` in 0..255. -/
theorem C4_mix_self (u c w : Nat) (hc : c < 65536) (hw : w < 256) :
    lv_color_16_16_mix u c c w = c := by
  rw [mix_eq_reference u c c w hc hc hw]
  have hm : (w + 4) / 8 ≤ 32 := by omega
  unfold mix_reference
  rw [mix_channel_self _ _ hm, mix_channel_self _ _ hm, mix_channel_self _ _ hm]
  exact pack_channels c hc

/-- Witness for C4 in the table variant at `c = 0xABCD`, `w = 77`. -/
theorem C4_mix_self_witness : lv_color_16_16_mix 1 0xABCD 0xABCD 77 = 0xABCD :=
  C4_mix_self 1 0xABCD 77 (by decide) (by decide)

/-- C5: in both build variants and for all 16-bit `c1`, `c2`, every RGB565 channel of
`lv_color_16_16_mix c1 c2 128` is `floor((f + b) / 2)` of the channels `f` of `c1` and `b` of
`c2`. End-to-end: the channels of `lv_color_hex 0xFF8000` truncated to RGB565 (red and blue
shifted right by 3, green by 2) are those of `0xFC00`, black gives `0x0000`, and their blend at
weight 128 is `0x7A00`, that is red 15, green 16, blue 0. -/
theorem C5_mix_half (u c1 c2 : Nat) (hc1 : c1 < 65536) (hc2 : c2 < 65536) :
    (blue16 (lv_color_16_16_mix u c1 c2 128) = (blue16 c1 + blue16 c2) / 2 ∧
      green16 (lv_color_16_16_mix u c1 c2 128) = (green16 c1 + green16 c2) / 2 ∧
      red16 (lv_color_16_16_mix u c1 c2 128) = (red16 c1 + red16 c2) / 2) ∧
    (red16 0xFC00 = (lv_color_hex 0xFF8000).red >>> 3 ∧
      green16 0xFC00 = (lv_color_hex 0xFF8000).green >>> 2 ∧
      blue16 0xFC00 = (lv_color_hex 0xFF8000).blue >>> 3) ∧
    (red16 0x0000 = (lv_color_hex 0x000000).red >>> 3 ∧
      green16 0x0000 = (lv_color_hex 0x000000).green >>> 2 ∧
      blue16 0x0000 = (lv_color_hex 0x000000).blue >>> 3) ∧
    lv_color_16_16_mix u 0xFC00 0x0000 128 = 0x7A00 ∧
    red16 0x7A00 = 15 ∧ green16 0x7A00 = 16 ∧ blue16 0x7A00 = 0 := by
  have key : ∀ a b : Nat, a < 65536 → b < 65536 →
      lv_color_16_16_mix u a b 128 = mix_reference a b 16 :=
    fun a b ha hb => mix_eq_reference u a b 128 ha hb (by decide)
  obtain ⟨hb, hg, hr⟩ := mix_reference_channels c1 c2 16 (by decide)
  refine ⟨?_, by decide, by decide, ?_, by decide, by decide, by decide⟩
  · rw [key c1 c2 hc1 hc2, hb, hg, hr, mix_channel_half, mix_channel_half, mix_channel_half]
    exact ⟨rfl, rfl, rfl⟩
  · rw [key _ _ (by decide) (by decide)]
    decide

/-- Witness for C5 in the packed-multiply variant at `c1 = 0xFC00`, `c2 = 0x1234`. -/
theorem C5_mix_half_witness :
    (blue16 (lv_color_16_16_mix 0 0xFC00 0x1234 128) = (blue16 0xFC00 + blue16 0x1234) / 2 ∧
      green16 (lv_color_16_16_mix 0 0xFC00 0x1234 128) = (green16 0xFC00 + green16 0x1234) / 2 ∧
      red16 (lv_color_16_16_mix 0 0xFC00 0x1234 128) = (red16 0xFC00 + red16 0x1234) / 2) ∧
    (red16 0xFC00 = (lv_color_hex 0xFF8000).red >>> 3 ∧
      green16 0xFC00 = (lv_color_hex 0xFF8000).green >>> 2 ∧
      blue16 0xFC00 = (lv_color_hex 0xFF8000).blue >>> 3) ∧
    (red16 0x0000 = (lv_color_hex 0x000000).red >>> 3 ∧
      green16 0x0000 = (lv_color_hex 0x000000).green >>> 2 ∧
      blue16 0x0000 = (lv_color_hex 0x000000).blue >>> 3) ∧
    lv_color_16_16_mix 0 0xFC00 0x0000 128 = 0x7A00 ∧
    red16 0x7A00 = 15 ∧ green16 0x7A00 = 16 ∧ blue16 0x7A00 = 0 :=
  C5_mix_half 0 0xFC00 0x1234 (by decide) (by decide)

/-- C6: in both build variants and for all 16-bit `c1`, `c2` and every weight `w` in 0..255:
when the reduced multiplier `(w + 4) >> 3` is 0 the result is exactly `c2`, and when it is 32
the result is exactly `c1`. The multiplier is 0 exactly for `w` in 0..3, which covers every
opacity below `LV_OPA_MIN`, and 32 exactly for `w` in 252..255, which covers every opacity
above `LV_OPA_MAX`. -/
theorem C6_mix_saturates (u c1 c2 w : Nat) (hc1 : c1 < 65536) (hc2 : c2 < 65536) (hw : w < 256) :
    ((w + 4) >>> 3 = 0 → lv_color_16_16_mix u c1 c2 w = c2) ∧
    ((w + 4) >>> 3 = 32 → lv_color_16_16_mix u c1 c2 w = c1) ∧
    ((w + 4) >>> 3 = 0 ↔ w ≤ 3) ∧ ((w + 4) >>> 3 = 32 ↔ 252 ≤ w) ∧
    (w < LV_OPA_MIN → lv_color_16_16_mix u c1 c2 w = c2) ∧
    (LV_OPA_MAX < w → lv_color_16_16_mix u c1 c2 w = c1) := by
  have hs : (w + 4) >>> 3 = (w + 4) / 8 := Nat.shiftRight_eq_div_pow _ 3
  have h0 : (w + 4) / 8 = 0 → lv_color_16_16_mix u c1 c2 w = c2 := by
    intro h
    rw [mix_eq_reference u c1 c2 w hc1 hc2 hw, h]
    exact mix_reference_zero c1 c2 hc2
  have h32 : (w + 4) / 8 = 32 → lv_color_16_16_mix u c1 c2 w = c1 := by
    intro h
    rw [mix_eq_reference u c1 c2 w hc1 hc2 hw, h]
    exact mix_reference_full c1 c2 hc1
  rw [hs]
  unfold LV_OPA_MIN LV_OPA_MAX
  refine ⟨h0, h32, by omega, by omega, fun h => h0 (by omega), fun h => h32 (by omega)⟩

/-- Witness for C6 in the packed-multiply variant at `w = 253`, which passes neither of the
early returns of that variant. -/
theorem C6_mix_saturates_witness :
    ((253 + 4) >>> 3 = 0 → lv_color_16_16_mix 0 0xFC00 0x1234 253 = 0x1234) ∧
    ((253 + 4) >>> 3 = 32 → lv_color_16_16_mix 0 0xFC00 0x1234 253 = 0xFC00) ∧
    ((253 + 4) >>> 3 = 0 ↔ 253 ≤ 3) ∧ ((253 + 4) >>> 3 = 32 ↔ 252 ≤ 253) ∧
    (253 < LV_OPA_MIN → lv_color_16_16_mix 0 0xFC00 0x1234 253 = 0x1234) ∧
    (LV_OPA_MAX < 253 → lv_color_16_16_mix 0 0xFC00 0x1234 253 = 0xFC00) :=
  C6_mix_saturates 0 0xFC00 0x1234 253 (by decide) (by decide) (by decide)


/-- Duplicating a nibble by OR-ing it with itself shifted by four is multiplication by 17. -/
theorem nibble_dup (n : Nat) (hn : n < 16) : 16 * n ||| n = 0x11 * n := by
  have h : 2 ^ 4 * n ||| n = 2 ^ 4 * n + n := (Nat.mul_add_lt_is_or (by omega) _).symm
  have e : (16 : Nat) = 2 ^ 4 := rfl
  rw [e, h]
  omega

theorem and_high_nibble (x : Nat) : x &&& 0xF0 = 16 * (x / 16 % 16) := by
  have h := and_two_pow_mul x (2 ^ 4 - 1) 4
  rw [Nat.and_pow_two_sub_one_eq_mod] at h
  exact h

theorem and_low_nibble (x : Nat) : x &&& 0xF = x % 16 :=
  Nat.and_pow_two_sub_one_eq_mod x 4

theorem and_low_byte (x : Nat) : x &&& 0xff = x % 256 :=
  Nat.and_pow_two_sub_one_eq_mod x 8

/-- The word `0xRRGGBB` built from three bytes by shifts and ORs is their positional sum. -/
theorem bytes_or (r g b : Nat) (hg : g < 256) (hb : b < 256) :
    (r <<< 16) ||| (g <<< 8) ||| b = 65536 * r + 256 * g + b := by
  have h1 : 2 ^ 16 * r ||| 2 ^ 8 * g = 2 ^ 16 * r + 2 ^ 8 * g :=
    (Nat.mul_add_lt_is_or (by omega) _).symm
  have h2 : 2 ^ 8 * (2 ^ 8 * r + g) ||| b = 2 ^ 8 * (2 ^ 8 * r + g) + b :=
    (Nat.mul_add_lt_is_or hb _).symm
  have e1 : r <<< 16 = 2 ^ 16 * r := by
    rw [Nat.shiftLeft_eq, Nat.mul_comm]
  have e2 : g <<< 8 = 2 ^ 8 * g := by
    rw [Nat.shiftLeft_eq, Nat.mul_comm]
  have e3 : 2 ^ 16 * r + 2 ^ 8 * g = 2 ^ 8 * (2 ^ 8 * r + g) := by omega
  rw [e1, e2, h1, e3, h2]
  omega

/-- C7: for every `c`, with nibbles `R = (c >> 8) & 0xF`, `G = (c >> 4) & 0xF`, `B = c & 0xF`,
`lv_color_hex3 c` is `lv_color_hex` of `(R * 0x11 << 16) | (G * 0x11 << 8) | (B * 0x11)`:
every nibble is duplicated into a byte and the bits above the low 12 are ignored. In
particular `lv_color_hex3 0xABC = lv_color_hex 0xAABBCC` and
`lv_color_hex3 0x123 = lv_color_hex 0x112233`. -/
theorem C7_hex3_nibble_duplication (c : Nat) :
    lv_color_hex3 c
      = lv_color_hex (((((c >>> 8) &&& 0xF) * 0x11) <<< 16) ||| ((((c >>> 4) &&& 0xF) * 0x11) <<< 8)
          ||| ((c &&& 0xF) * 0x11)) ∧
    lv_color_hex3 c = lv_color_hex3 (c % 4096) ∧
    lv_color_hex3 0xABC = lv_color_hex 0xAABBCC ∧
    lv_color_hex3 0x123 = lv_color_hex 0x112233 := by
  have key : ∀ x : Nat, lv_color_hex3 x
      = lv_color_make (0x11 * (x / 256 % 16)) (0x11 * (x / 16 % 16)) (0x11 * (x % 16)) := by
    intro x
    unfold lv_color_hex3
    have hr : ((x >>> 4) &&& 0xF0) ||| ((x >>> 8) &&& 0xF) = 0x11 * (x / 256 % 16) := by
      rw [and_high_nibble, and_low_nibble, Nat.shiftRight_eq_div_pow, Nat.shiftRight_eq_div_pow]
      have e : x / 2 ^ 4 / 16 % 16 = x / 2 ^ 8 % 16 := by omega
      rw [e]
      have := nibble_dup (x / 2 ^ 8 % 16) (by omega)
      rw [this]
      norm_num
    have hg : (x &&& 0xF0) ||| ((x &&& 0xF0) >>> 4) = 0x11 * (x / 16 % 16) := by
      rw [and_high_nibble, Nat.shiftRight_eq_div_pow]
      have e : 16 * (x / 16 % 16) / 2 ^ 4 = x / 16 % 16 := by omega
      rw [e]
      exact nibble_dup (x / 16 % 16) (by omega)
    have hb : (x &&& 0xF) ||| shl32 (x &&& 0xF) 4 = 0x11 * (x % 16) := by
      rw [and_low_nibble]
      unfold shl32 u32
      rw [Nat.shiftLeft_eq]
      have e : x % 16 * 2 ^ 4 % 4294967296 = 16 * (x % 16) := by omega
      rw [e, Nat.or_comm]
      exact nibble_dup (x % 16) (by omega)
    rw [hr, hg, hb]
    unfold lv_color_make u8
    simp only [Nat.mod_mod]
  refine ⟨?_, ?_, by decide, by decide⟩
  · rw [key c, and_low_nibble, and_low_nibble, and_low_nibble, Nat.shiftRight_eq_div_pow,
      Nat.shiftRight_eq_div_pow,
      bytes_or _ _ _ (by omega) (by omega)]
    unfold lv_color_hex lv_color_make u8
    rw [and_low_byte, and_low_byte, and_low_byte, Nat.shiftRight_eq_div_pow,
      Nat.shiftRight_eq_div_pow, Nat.shiftRight_eq_div_pow]
    simp only [Nat.reducePow]
    have hR : c / 256 % 16 < 16 := by omega
    have hG : c / 16 % 16 < 16 := by omega
    have hB : c % 16 < 16 := by omega
    have hR17 : c / 256 % 16 * 17 < 256 := by omega
    have hG17 : c / 16 % 16 * 17 < 256 := by omega
    have hB17 : c % 16 * 17 < 256 := by omega
    simp only [Nat.mul_comm 17]
    generalize c / 256 % 16 * 17 = r at hR17 ⊢
    generalize c / 16 % 16 * 17 = g at hG17 ⊢
    generalize c % 16 * 17 = b at hB17 ⊢
    have d1 : (65536 * r + 256 * g + b) / 65536 = r := by omega
    have d2 : (65536 * r + 256 * g + b) / 256 = 256 * r + g := by omega
    rw [d1, d2, Nat.div_one]
    congr 1 <;> omega
  · rw [key c, key (c % 4096)]
    congr 2 <;> omega


/-- C8: for 8-bit channels, `lv_color32_eq` applied to two colours built by `lv_color32_make`
is true if and only if the four channels are pairwise equal, so changing any single channel
makes the comparison false. In particular `lv_color32_make 10 20 30 40` equals itself. -/
theorem C8_color32_eq_iff (r1 g1 b1 a1 r2 g2 b2 a2 : Nat)
    (hr1 : r1 < 256) (hg1 : g1 < 256) (hb1 : b1 < 256) (ha1 : a1 < 256)
    (hr2 : r2 < 256) (hg2 : g2 < 256) (hb2 : b2 < 256) (ha2 : a2 < 256) :
    (lv_color32_eq (lv_color32_make r1 g1 b1 a1) (lv_color32_make r2 g2 b2 a2) = true
      ↔ r1 = r2 ∧ g1 = g2 ∧ b1 = b2 ∧ a1 = a2) ∧
    lv_color32_eq (lv_color32_make 10 20 30 40) (lv_color32_make 10 20 30 40) = true := by
  refine ⟨?_, by decide⟩
  unfold lv_color32_eq lv_color32_word lv_color32_make u8
  rw [decide_eq_true_iff]
  simp only
  omega

/-- Witness for C8: two colours that differ in the green channel alone. -/
theorem C8_color32_eq_iff_witness :
    (lv_color32_eq (lv_color32_make 10 20 30 40) (lv_color32_make 10 21 30 40) = true
      ↔ 10 = 10 ∧ 20 = 21 ∧ 30 = 30 ∧ 40 = 40) ∧
    lv_color32_eq (lv_color32_make 10 20 30 40) (lv_color32_make 10 20 30 40) = true :=
  C8_color32_eq_iff 10 20 30 40 10 21 30 40 (by decide) (by decide) (by decide) (by decide)
    (by decide) (by decide) (by decide) (by decide)

/-- C9: whatever 8-bit value `lv_color_format_get_bpp` returns for a tag `cf`,
`lv_color_format_get_size cf` is `ceil(bpp / 8)`: `(bpp + 7) >> 3` does not wrap around, it is
0 exactly when `bpp` is 0, and `bpp <= 8 * size < bpp + 8`. -/
theorem C9_format_size_is_ceil (get_bpp : Nat → Nat) (cf : Nat) (h : get_bpp cf < 256) :
    lv_color_format_get_size get_bpp cf = ⌈((get_bpp cf : ℚ) / 8)⌉₊ ∧
    lv_color_format_get_size get_bpp cf = (get_bpp cf + 7) / 8 ∧
    (lv_color_format_get_size get_bpp cf = 0 ↔ get_bpp cf = 0) ∧
    get_bpp cf ≤ 8 * lv_color_format_get_size get_bpp cf ∧
    8 * lv_color_format_get_size get_bpp cf < get_bpp cf + 8 := by
  have hs : lv_color_format_get_size get_bpp cf = (get_bpp cf + 7) / 8 := by
    unfold lv_color_format_get_size u8
    rw [Nat.shiftRight_eq_div_pow]
    omega
  rw [hs]
  generalize get_bpp cf = n at h
  refine ⟨?_, rfl, by omega, by omega, by omega⟩
  symm
  by_cases h0 : n = 0
  · subst h0
    simp
  · have hne : (n + 7) / 8 ≠ 0 := by omega
    rw [Nat.ceil_eq_iff hne]
    have h1 : 8 * ((n + 7) / 8 - 1) < n := by omega
    have h2 : n ≤ 8 * ((n + 7) / 8) := by omega
    have h1q : (8 : ℚ) * (((n + 7) / 8 - 1 : Nat) : ℚ) < (n : ℚ) := by exact_mod_cast h1
    have h2q : (n : ℚ) ≤ 8 * (((n + 7) / 8 : Nat) : ℚ) := by exact_mod_cast h2
    constructor
    · rw [lt_div_iff₀ (by norm_num)]
      linarith
    · rw [div_le_iff₀ (by norm_num)]
      linarith

/-- Witness for C9: a 24-bit format occupies 3 bytes. -/
theorem C9_format_size_is_ceil_witness :
    lv_color_format_get_size (fun _ => 24) LV_COLOR_FORMAT_RGB888 = ⌈(((24 : Nat) : ℚ) / 8)⌉₊ ∧
    lv_color_format_get_size (fun _ => 24) LV_COLOR_FORMAT_RGB888 = (24 + 7) / 8 ∧
    (lv_color_format_get_size (fun _ => 24) LV_COLOR_FORMAT_RGB888 = 0 ↔ 24 = 0) ∧
    24 ≤ 8 * lv_color_format_get_size (fun _ => 24) LV_COLOR_FORMAT_RGB888 ∧
    8 * lv_color_format_get_size (fun _ => 24) LV_COLOR_FORMAT_RGB888 < 24 + 8 :=
  C9_format_size_is_ceil (fun _ => 24) LV_COLOR_FORMAT_RGB888 (by decide)

/-- C10: `LV_COLOR_INDEXED_PALETTE_SIZE` is 2 for I1, 4 for I2, 16 for I4, 256 for I8 and 0 for
every other tag; it is non-zero exactly when `LV_COLOR_FORMAT_IS_INDEXED` holds. In particular
the size is 16 for `LV_COLOR_FORMAT_I4` and 0 for `LV_COLOR_FORMAT_RGB888`. -/
theorem C10_indexed_palette_size (cf : Nat) :
    LV_COLOR_INDEXED_PALETTE_SIZE LV_COLOR_FORMAT_I1 = 2 ∧
    LV_COLOR_INDEXED_PALETTE_SIZE LV_COLOR_FORMAT_I2 = 4 ∧
    LV_COLOR_INDEXED_PALETTE_SIZE LV_COLOR_FORMAT_I4 = 16 ∧
    LV_COLOR_INDEXED_PALETTE_SIZE LV_COLOR_FORMAT_I8 = 256 ∧
    LV_COLOR_INDEXED_PALETTE_SIZE LV_COLOR_FORMAT_RGB888 = 0 ∧
    (cf ≠ LV_COLOR_FORMAT_I1 → cf ≠ LV_COLOR_FORMAT_I2 → cf ≠ LV_COLOR_FORMAT_I4 →
      cf ≠ LV_COLOR_FORMAT_I8 → LV_COLOR_INDEXED_PALETTE_SIZE cf = 0) ∧
    (LV_COLOR_INDEXED_PALETTE_SIZE cf ≠ 0 ↔ LV_COLOR_FORMAT_IS_INDEXED cf = true) := by
  refine ⟨by decide, by decide, by decide, by decide, by decide, ?_, ?_⟩
  · intro h1 h2 h4 h8
    unfold LV_COLOR_INDEXED_PALETTE_SIZE
    rw [if_neg h1, if_neg h2, if_neg h4, if_neg h8]
  · unfold LV_COLOR_INDEXED_PALETTE_SIZE LV_COLOR_FORMAT_IS_INDEXED LV_COLOR_FORMAT_I1
      LV_COLOR_FORMAT_I2 LV_COLOR_FORMAT_I4 LV_COLOR_FORMAT_I8
    simp only [Bool.and_eq_true, decide_eq_true_eq]
    split_ifs <;> omega


/-- C11: `LV_COLOR_FORMAT_IS_ALPHA_ONLY` is true exactly at the tags A1, A2, A4, A8 and
`LV_COLOR_FORMAT_IS_INDEXED` exactly at I1, I2, I4, I8; the two tests are never both true, and
every other value, the remaining defined tags included, makes both false. -/
theorem C11_format_classes (cf : Nat) :
    (LV_COLOR_FORMAT_IS_ALPHA_ONLY cf = true ↔
      cf = LV_COLOR_FORMAT_A1 ∨ cf = LV_COLOR_FORMAT_A2 ∨ cf = LV_COLOR_FORMAT_A4 ∨
        cf = LV_COLOR_FORMAT_A8) ∧
    (LV_COLOR_FORMAT_IS_INDEXED cf = true ↔
      cf = LV_COLOR_FORMAT_I1 ∨ cf = LV_COLOR_FORMAT_I2 ∨ cf = LV_COLOR_FORMAT_I4 ∨
        cf = LV_COLOR_FORMAT_I8) ∧
    ¬ (LV_COLOR_FORMAT_IS_ALPHA_ONLY cf = true ∧ LV_COLOR_FORMAT_IS_INDEXED cf = true) ∧
    (∀ t ∈ [LV_COLOR_FORMAT_UNKNOWN, LV_COLOR_FORMAT_RAW, LV_COLOR_FORMAT_RAW_ALPHA,
        LV_COLOR_FORMAT_L8, LV_COLOR_FORMAT_RGB565, LV_COLOR_FORMAT_RGB565A8,
        LV_COLOR_FORMAT_RGB888, LV_COLOR_FORMAT_ARGB8888, LV_COLOR_FORMAT_XRGB8888],
      LV_COLOR_FORMAT_IS_ALPHA_ONLY t = false ∧ LV_COLOR_FORMAT_IS_INDEXED t = false) ∧
    ((cf < LV_COLOR_FORMAT_I1 ∨ LV_COLOR_FORMAT_A8 < cf) →
      LV_COLOR_FORMAT_IS_ALPHA_ONLY cf = false ∧ LV_COLOR_FORMAT_IS_INDEXED cf = false) := by
  unfold LV_COLOR_FORMAT_IS_ALPHA_ONLY LV_COLOR_FORMAT_IS_INDEXED LV_COLOR_FORMAT_A1
    LV_COLOR_FORMAT_A2 LV_COLOR_FORMAT_A4 LV_COLOR_FORMAT_A8 LV_COLOR_FORMAT_I1
    LV_COLOR_FORMAT_I2 LV_COLOR_FORMAT_I4 LV_COLOR_FORMAT_I8
  refine ⟨?_, ?_, ?_, by decide, ?_⟩
  · simp only [Bool.and_eq_true, decide_eq_true_eq]
    omega
  · simp only [Bool.and_eq_true, decide_eq_true_eq]
    omega
  · simp only [Bool.and_eq_true, decide_eq_true_eq]
    omega
  · intro h
    simp only [Bool.and_eq_false_iff, decide_eq_false_iff_not]
    omega

/-- C12: with `LV_COLOR_DEPTH` as a parameter, the native tag is L8 for depth 8, RGB565 for 16,
RGB888 for 24 and XRGB8888 for 32; the native-with-alpha tag is not declared for depth 8, is
RGB565A8 for 16 and ARGB8888 for 24 and 32; whatever the depth, the native tag is neither
indexed nor alpha-only. -/
theorem C12_native_format (d : Nat) :
    LV_COLOR_FORMAT_NATIVE 8 = some LV_COLOR_FORMAT_L8 ∧
    LV_COLOR_FORMAT_NATIVE 16 = some LV_COLOR_FORMAT_RGB565 ∧
    LV_COLOR_FORMAT_NATIVE 24 = some LV_COLOR_FORMAT_RGB888 ∧
    LV_COLOR_FORMAT_NATIVE 32 = some LV_COLOR_FORMAT_XRGB8888 ∧
    LV_COLOR_FORMAT_NATIVE_WITH_ALPHA 8 = none ∧
    LV_COLOR_FORMAT_NATIVE_WITH_ALPHA 16 = some LV_COLOR_FORMAT_RGB565A8 ∧
    LV_COLOR_FORMAT_NATIVE_WITH_ALPHA 24 = some LV_COLOR_FORMAT_ARGB8888 ∧
    LV_COLOR_FORMAT_NATIVE_WITH_ALPHA 32 = some LV_COLOR_FORMAT_ARGB8888 ∧
    ((d = 8 ∨ d = 16 ∨ d = 24 ∨ d = 32) → (LV_COLOR_FORMAT_NATIVE d).isSome = true) ∧
    (∀ cf, LV_COLOR_FORMAT_NATIVE d = some cf →
      LV_COLOR_FORMAT_IS_INDEXED cf = false ∧ LV_COLOR_FORMAT_IS_ALPHA_ONLY cf = false) := by
  refine ⟨rfl, rfl, rfl, rfl, rfl, rfl, rfl, rfl, ?_, ?_⟩
  · rintro (h | h | h | h) <;> subst h <;> rfl
  · intro cf h
    unfold LV_COLOR_FORMAT_NATIVE at h
    split_ifs at h <;> cases h <;> exact ⟨by decide, by decide⟩


/-- The packed word of a colour with 8-bit channels is their positional sum. -/
theorem color_to_int_eq (c : lv_color_t) (hb : c.blue < 256) (hg : c.green < 256)
    (hr : c.red < 256) :
    lv_color_to_int c = c.blue + 256 * c.green + 65536 * c.red := by
  unfold lv_color_to_int u32
  rw [Nat.shiftLeft_eq, Nat.shiftLeft_eq]
  omega

theorem color_hex_fields (c : Nat) :
    (lv_color_hex c).red = c / 65536 % 256 ∧ (lv_color_hex c).green = c / 256 % 256 ∧
      (lv_color_hex c).blue = c % 256 := by
  unfold lv_color_hex u8
  simp only [and_low_byte, Nat.shiftRight_eq_div_pow, Nat.reducePow, Nat.div_one, Nat.mod_mod]
  exact ⟨trivial, trivial, trivial⟩

/-- C13: for every `c`, `lv_color_to_int (lv_color_hex c)` is `c & 0xFFFFFF`: red is bits
16..23, green bits 8..15 and blue bits 0..7 (the lowest byte), a value up to `0xFFFFFF` is
returned unchanged, and a larger input is truncated to its low 24 bits. -/
theorem C13_hex_roundtrip (c : Nat) :
    lv_color_to_int (lv_color_hex c) = c &&& 0xFFFFFF ∧
    lv_color_to_int (lv_color_hex c) = c % 16777216 ∧
    (c ≤ 0xFFFFFF → lv_color_to_int (lv_color_hex c) = c) ∧
    ((lv_color_hex c).red = (c >>> 16) % 256 ∧ (lv_color_hex c).green = (c >>> 8) % 256 ∧
      (lv_color_hex c).blue = c % 256) ∧
    lv_color_to_int (lv_color_hex c) % 256 = (lv_color_hex c).blue := by
  obtain ⟨hr, hg, hb⟩ := color_hex_fields c
  have hint : lv_color_to_int (lv_color_hex c) = c % 16777216 := by
    rw [color_to_int_eq _ (by omega) (by omega) (by omega), hr, hg, hb]
    omega
  have hand : c &&& 0xFFFFFF = c % 16777216 := Nat.and_pow_two_sub_one_eq_mod c 24
  refine ⟨by rw [hint, hand], hint, fun h => by omega, ?_, by rw [hint, hb]; omega⟩
  rw [Nat.shiftRight_eq_div_pow, Nat.shiftRight_eq_div_pow]
  exact ⟨hr, hg, hb⟩

/-- C14: for colours with 8-bit channels, `lv_color_eq c1 c2` is true if and only if
`lv_color_to_int c1 = lv_color_to_int c2`, which holds if and only if the red, green and blue
channels agree; so the comparison of packed words coincides with field-by-field equality, also
on colours built by `lv_color_make`, and `lv_color_eq` is reflexive, symmetric and
transitive. -/
theorem C14_color_eq_iff (c1 c2 : lv_color_t)
    (hb1 : c1.blue < 256) (hg1 : c1.green < 256) (hr1 : c1.red < 256)
    (hb2 : c2.blue < 256) (hg2 : c2.green < 256) (hr2 : c2.red < 256) :
    (lv_color_eq c1 c2 = true ↔ lv_color_to_int c1 = lv_color_to_int c2) ∧
    (lv_color_to_int c1 = lv_color_to_int c2 ↔
      c1.red = c2.red ∧ c1.green = c2.green ∧ c1.blue = c2.blue) ∧
    (lv_color_eq c1 c2 = true ↔ c1 = c2) ∧
    (lv_color_eq (lv_color_make c1.red c1.green c1.blue) (lv_color_make c2.red c2.green c2.blue)
        = true ↔ c1.red = c2.red ∧ c1.green = c2.green ∧ c1.blue = c2.blue) ∧
    lv_color_eq c1 c1 = true ∧
    (lv_color_eq c1 c2 = true → lv_color_eq c2 c1 = true) ∧
    (∀ c3 : lv_color_t, lv_color_eq c1 c2 = true → lv_color_eq c2 c3 = true →
      lv_color_eq c1 c3 = true) := by
  have hdef : ∀ a b : lv_color_t,
      lv_color_eq a b = true ↔ lv_color_to_int a = lv_color_to_int b := by
    intro a b
    unfold lv_color_eq
    exact decide_eq_true_iff
  have hinj : lv_color_to_int c1 = lv_color_to_int c2 ↔
      c1.red = c2.red ∧ c1.green = c2.green ∧ c1.blue = c2.blue := by
    rw [color_to_int_eq c1 hb1 hg1 hr1, color_to_int_eq c2 hb2 hg2 hr2]
    omega
  have hmk : lv_color_make c1.red c1.green c1.blue = c1 ∧
      lv_color_make c2.red c2.green c2.blue = c2 := by
    unfold lv_color_make u8
    rw [Nat.mod_eq_of_lt hb1, Nat.mod_eq_of_lt hg1, Nat.mod_eq_of_lt hr1,
      Nat.mod_eq_of_lt hb2, Nat.mod_eq_of_lt hg2, Nat.mod_eq_of_lt hr2]
    exact ⟨rfl, rfl⟩
  refine ⟨hdef c1 c2, hinj, ?_, ?_, (hdef c1 c1).2 rfl, ?_, ?_⟩
  · rw [hdef, hinj]
    constructor
    · rintro ⟨h1, h2, h3⟩
      cases c1
      cases c2
      simp only at h1 h2 h3
      subst h1 h2 h3
      rfl
    · intro h
      subst h
      exact ⟨rfl, rfl, rfl⟩
  · rw [hmk.1, hmk.2, hdef, hinj]
  · intro h
    exact (hdef c2 c1).2 ((hdef c1 c2).1 h).symm
  · intro c3 h12 h23
    exact (hdef c1 c3).2 (((hdef c1 c2).1 h12).trans ((hdef c2 c3).1 h23))

/-- Witness for C14: orange compared with a colour that differs in the blue channel alone. -/
theorem C14_color_eq_iff_witness :
    (lv_color_eq (lv_color_hex 0xFF8000) (lv_color_hex 0xFF8001) = true ↔
      lv_color_to_int (lv_color_hex 0xFF8000) = lv_color_to_int (lv_color_hex 0xFF8001)) ∧
    (lv_color_to_int (lv_color_hex 0xFF8000) = lv_color_to_int (lv_color_hex 0xFF8001) ↔
      (lv_color_hex 0xFF8000).red = (lv_color_hex 0xFF8001).red ∧
        (lv_color_hex 0xFF8000).green = (lv_color_hex 0xFF8001).green ∧
        (lv_color_hex 0xFF8000).blue = (lv_color_hex 0xFF8001).blue) ∧
    (lv_color_eq (lv_color_hex 0xFF8000) (lv_color_hex 0xFF8001) = true ↔
      lv_color_hex 0xFF8000 = lv_color_hex 0xFF8001) ∧
    (lv_color_eq
        (lv_color_make (lv_color_hex 0xFF8000).red (lv_color_hex 0xFF8000).green
          (lv_color_hex 0xFF8000).blue)
        (lv_color_make (lv_color_hex 0xFF8001).red (lv_color_hex 0xFF8001).green
          (lv_color_hex 0xFF8001).blue)
        = true ↔
      (lv_color_hex 0xFF8000).red = (lv_color_hex 0xFF8001).red ∧
        (lv_color_hex 0xFF8000).green = (lv_color_hex 0xFF8001).green ∧
        (lv_color_hex 0xFF8000).blue = (lv_color_hex 0xFF8001).blue) ∧
    lv_color_eq (lv_color_hex 0xFF8000) (lv_color_hex 0xFF8000) = true ∧
    (lv_color_eq (lv_color_hex 0xFF8000) (lv_color_hex 0xFF8001) = true →
      lv_color_eq (lv_color_hex 0xFF8001) (lv_color_hex 0xFF8000) = true) ∧
    (∀ c3 : lv_color_t, lv_color_eq (lv_color_hex 0xFF8000) (lv_color_hex 0xFF8001) = true →
      lv_color_eq (lv_color_hex 0xFF8001) c3 = true →
      lv_color_eq (lv_color_hex 0xFF8000) c3 = true) :=
  C14_color_eq_iff (lv_color_hex 0xFF8000) (lv_color_hex 0xFF8001) (by decide) (by decide)
    (by decide) (by decide) (by decide) (by decide)


theorem mix_channel_swap (f b m : Nat) (hm : m ≤ 32) :
    mix_channel f b m = mix_channel b f (32 - m) := by
  unfold mix_channel
  have e : 32 - (32 - m) = m := by omega
  rw [e, Nat.add_comm]

theorem mix_reference_swap (c1 c2 m : Nat) (hm : m ≤ 32) :
    mix_reference c1 c2 m = mix_reference c2 c1 (32 - m) := by
  unfold mix_reference
  rw [mix_channel_swap _ _ m hm, mix_channel_swap (green16 c1) _ m hm,
    mix_channel_swap (red16 c1) _ m hm]

/-- A blended channel lies between the two channels it blends. -/
theorem mix_channel_between (f b m : Nat) (hm : m ≤ 32) :
    min f b ≤ mix_channel f b m ∧ mix_channel f b m ≤ max f b := by
  have hup := lane_sum_le f b m (max f b) (le_max_left f b) (le_max_right f b) hm
  have h1 : min f b * m ≤ f * m := Nat.mul_le_mul_right m (min_le_left f b)
  have h2 : min f b * (32 - m) ≤ b * (32 - m) := Nat.mul_le_mul_right (32 - m) (min_le_right f b)
  have h3 : min f b * m + min f b * (32 - m) = 32 * min f b := by
    rw [← Nat.mul_add, Nat.mul_comm]
    congr 1
    omega
  unfold mix_channel
  generalize min f b = lo at h1 h2 h3 ⊢
  generalize max f b = hi at hup ⊢
  constructor
  · rw [Nat.le_div_iff_mul_le (by decide)]
    omega
  · omega

/-- The weighted sum of a channel moves towards the foreground as the multiplier grows. -/
theorem mix_channel_mono (f b m n : Nat) (hmn : m ≤ n) (hn : n ≤ 32) :
    (b ≤ f → mix_channel f b m ≤ mix_channel f b n) ∧
    (f ≤ b → mix_channel f b n ≤ mix_channel f b m) := by
  obtain ⟨d, rfl⟩ : ∃ d, n = m + d := ⟨n - m, by omega⟩
  have e1 : f * (m + d) = f * m + f * d := Nat.mul_add f m d
  have e2 : b * (32 - m) = b * (32 - (m + d)) + b * d := by
    rw [← Nat.mul_add]
    congr 1
    omega
  unfold mix_channel
  constructor
  · intro h
    have h3 : b * d ≤ f * d := Nat.mul_le_mul_right d h
    apply Nat.div_le_div_right
    omega
  · intro h
    have h3 : f * d ≤ b * d := Nat.mul_le_mul_right d h
    apply Nat.div_le_div_right
    omega

theorem switch_fallthrough (c1 c2 m : Nat) (hm : 32 < m) :
    lv_color_16_16_mix_switch c1 c2 m = Sum.inr (0, 0) := by
  obtain ⟨n, rfl⟩ : ∃ n, m = n + 33 := ⟨m - 33, by omega⟩
  rfl


/-- C15: for every weight `w` in 0..255 the reduced multiplier `(uint16_t)(w + 4) >> 3` lies in
0..32 and every value in 0..32 is attained; so the switch of the table variant always takes
one of its 33 cases, while the path past the switch with `fg = bg = 0`, which would return 0
whatever `c1` and `c2` are, is taken for multipliers above 32 only and is never reached. -/
theorem C15_switch_total (c1 c2 w : Nat) (hc1 : c1 < 65536) (hc2 : c2 < 65536) (hw : w < 256) :
    u8 ((u16 (w + 4)) >>> 3) ≤ 32 ∧
    (∀ m, m ≤ 32 → ∃ v, v < 256 ∧ u8 ((u16 (v + 4)) >>> 3) = m) ∧
    (lv_color_16_16_mix_switch c1 c2 (u8 ((u16 (w + 4)) >>> 3)) = Sum.inl c2 ∨
      lv_color_16_16_mix_switch c1 c2 (u8 ((u16 (w + 4)) >>> 3)) = Sum.inl c1 ∨
      (1 ≤ u8 ((u16 (w + 4)) >>> 3) ∧ u8 ((u16 (w + 4)) >>> 3) ≤ 31 ∧
        lv_color_16_16_mix_switch c1 c2 (u8 ((u16 (w + 4)) >>> 3))
          = Sum.inr (spread c1 * u8 ((u16 (w + 4)) >>> 3),
              spread c2 * (32 - u8 ((u16 (w + 4)) >>> 3))))) ∧
    (∀ m, 32 < m → lv_color_16_16_mix_switch c1 c2 m = Sum.inr (0, 0)) ∧
    u16 (((((add32 0 0) >>> 5) &&& NEUTRAL_MASK) >>> 16) ||| (((add32 0 0) >>> 5) &&& NEUTRAL_MASK))
      = 0 := by
  have hm : u8 ((u16 (w + 4)) >>> 3) = (w + 4) / 8 := by
    unfold u8 u16
    rw [Nat.shiftRight_eq_div_pow]
    omega
  have hsurj : ∀ m, m ≤ 32 → ∃ v, v < 256 ∧ u8 ((u16 (v + 4)) >>> 3) = m := by
    intro m hm32
    by_cases h0 : m = 0
    · exact ⟨0, by decide, by subst h0; rfl⟩
    · refine ⟨8 * m - 4, by omega, ?_⟩
      unfold u8 u16
      rw [Nat.shiftRight_eq_div_pow]
      omega
  rw [hm]
  have hle : (w + 4) / 8 ≤ 32 := by omega
  refine ⟨hle, hsurj, ?_, fun m h => switch_fallthrough c1 c2 m h, by decide⟩
  generalize (w + 4) / 8 = m at hle
  by_cases h0 : m = 0
  · left
    subst h0
    rfl
  by_cases h32 : m = 32
  · right
    left
    subst h32
    rfl
  · right
    right
    exact ⟨by omega, by omega, switch_breaks c1 c2 m hc1 hc2 (by omega) (by omega)⟩

/-- Witness for C15 at `c1 = 0xFC00`, `c2 = 0x1234`, `w = 100`. -/
theorem C15_switch_total_witness :
    u8 ((u16 (100 + 4)) >>> 3) ≤ 32 ∧
    (∀ m, m ≤ 32 → ∃ v, v < 256 ∧ u8 ((u16 (v + 4)) >>> 3) = m) ∧
    (lv_color_16_16_mix_switch 0xFC00 0x1234 (u8 ((u16 (100 + 4)) >>> 3)) = Sum.inl 0x1234 ∨
      lv_color_16_16_mix_switch 0xFC00 0x1234 (u8 ((u16 (100 + 4)) >>> 3)) = Sum.inl 0xFC00 ∨
      (1 ≤ u8 ((u16 (100 + 4)) >>> 3) ∧ u8 ((u16 (100 + 4)) >>> 3) ≤ 31 ∧
        lv_color_16_16_mix_switch 0xFC00 0x1234 (u8 ((u16 (100 + 4)) >>> 3))
          = Sum.inr (spread 0xFC00 * u8 ((u16 (100 + 4)) >>> 3),
              spread 0x1234 * (32 - u8 ((u16 (100 + 4)) >>> 3))))) ∧
    (∀ m, 32 < m → lv_color_16_16_mix_switch 0xFC00 0x1234 m = Sum.inr (0, 0)) ∧
    u16 (((((add32 0 0) >>> 5) &&& NEUTRAL_MASK) >>> 16) ||| (((add32 0 0) >>> 5) &&& NEUTRAL_MASK))
      = 0 :=
  C15_switch_total 0xFC00 0x1234 100 (by decide) (by decide) (by decide)

/-- C16: in both build variants, swapping the two colours and complementing the weight leaves
the blend unchanged: `lv_color_16_16_mix c1 c2 w = lv_color_16_16_mix c2 c1 (255 - w)` for
all 16-bit `c1`, `c2` and `w` in 0..255, the multiplier of `255 - w` being 32 minus the
multiplier of `w`. -/
theorem C16_mix_swap (u v c1 c2 w : Nat) (hc1 : c1 < 65536) (hc2 : c2 < 65536) (hw : w < 256) :
    lv_color_16_16_mix u c1 c2 w = lv_color_16_16_mix v c2 c1 (255 - w) ∧
    ((255 - w) + 4) >>> 3 = 32 - ((w + 4) >>> 3) := by
  have hk : (255 - w + 4) / 8 = 32 - (w + 4) / 8 := by omega
  constructor
  · rw [mix_eq_reference u c1 c2 w hc1 hc2 hw,
      mix_eq_reference v c2 c1 (255 - w) hc2 hc1 (by omega), hk]
    exact mix_reference_swap c1 c2 _ (by omega)
  · rw [Nat.shiftRight_eq_div_pow, Nat.shiftRight_eq_div_pow]
    exact hk

/-- Witness for C16 in the packed-multiply variant at `c1 = 0xFC00`, `c2 = 0x1234`, `w = 100`. -/
theorem C16_mix_swap_witness :
    lv_color_16_16_mix 0 0xFC00 0x1234 100 = lv_color_16_16_mix 0 0x1234 0xFC00 (255 - 100) ∧
    ((255 - 100) + 4) >>> 3 = 32 - ((100 + 4) >>> 3) :=
  C16_mix_swap 0 0 0xFC00 0x1234 100 (by decide) (by decide) (by decide)

/-- C17: in both build variants, every RGB565 channel of `lv_color_16_16_mix c1 c2 w` lies
between the same channel of `c1` and of `c2`, bounds included, for all 16-bit `c1`, `c2` and `w`
in 0..255. -/
theorem C17_mix_between (u c1 c2 w : Nat) (hc1 : c1 < 65536) (hc2 : c2 < 65536) (hw : w < 256) :
    (min (blue16 c1) (blue16 c2) ≤ blue16 (lv_color_16_16_mix u c1 c2 w) ∧
      blue16 (lv_color_16_16_mix u c1 c2 w) ≤ max (blue16 c1) (blue16 c2)) ∧
    (min (green16 c1) (green16 c2) ≤ green16 (lv_color_16_16_mix u c1 c2 w) ∧
      green16 (lv_color_16_16_mix u c1 c2 w) ≤ max (green16 c1) (green16 c2)) ∧
    (min (red16 c1) (red16 c2) ≤ red16 (lv_color_16_16_mix u c1 c2 w) ∧
      red16 (lv_color_16_16_mix u c1 c2 w) ≤ max (red16 c1) (red16 c2)) := by
  have hm : (w + 4) / 8 ≤ 32 := by omega
  obtain ⟨hb, hg, hr⟩ := mix_reference_channels c1 c2 ((w + 4) / 8) hm
  rw [mix_eq_reference u c1 c2 w hc1 hc2 hw, hb, hg, hr]
  exact ⟨mix_channel_between _ _ _ hm, mix_channel_between _ _ _ hm,
    mix_channel_between _ _ _ hm⟩

/-- Witness for C17 in the packed-multiply variant at `c1 = 0xFC00`, `c2 = 0x1234`, `w = 100`. -/
theorem C17_mix_between_witness :
    (min (blue16 0xFC00) (blue16 0x1234) ≤ blue16 (lv_color_16_16_mix 0 0xFC00 0x1234 100) ∧
      blue16 (lv_color_16_16_mix 0 0xFC00 0x1234 100) ≤ max (blue16 0xFC00) (blue16 0x1234)) ∧
    (min (green16 0xFC00) (green16 0x1234) ≤ green16 (lv_color_16_16_mix 0 0xFC00 0x1234 100) ∧
      green16 (lv_color_16_16_mix 0 0xFC00 0x1234 100)
        ≤ max (green16 0xFC00) (green16 0x1234)) ∧
    (min (red16 0xFC00) (red16 0x1234) ≤ red16 (lv_color_16_16_mix 0 0xFC00 0x1234 100) ∧
      red16 (lv_color_16_16_mix 0 0xFC00 0x1234 100) ≤ max (red16 0xFC00) (red16 0x1234)) :=
  C17_mix_between 0 0xFC00 0x1234 100 (by decide) (by decide) (by decide)

/-- C18: in both build variants the blend is monotone in the weight, channel by channel: for
16-bit `c1`, `c2` and weights `w <= w2` in 0..255, a channel of the blend at `w2` is at least
the channel at `w` when the channel of `c1` is at least that of `c2`, and at most the channel
at `w` when the channel of `c1` is at most that of `c2`. -/
theorem C18_mix_monotone (u c1 c2 w w2 : Nat) (hc1 : c1 < 65536) (hc2 : c2 < 65536)
    (hww : w ≤ w2) (hw2 : w2 < 256) :
    ((blue16 c2 ≤ blue16 c1 →
        blue16 (lv_color_16_16_mix u c1 c2 w) ≤ blue16 (lv_color_16_16_mix u c1 c2 w2)) ∧
      (blue16 c1 ≤ blue16 c2 →
        blue16 (lv_color_16_16_mix u c1 c2 w2) ≤ blue16 (lv_color_16_16_mix u c1 c2 w))) ∧
    ((green16 c2 ≤ green16 c1 →
        green16 (lv_color_16_16_mix u c1 c2 w) ≤ green16 (lv_color_16_16_mix u c1 c2 w2)) ∧
      (green16 c1 ≤ green16 c2 →
        green16 (lv_color_16_16_mix u c1 c2 w2) ≤ green16 (lv_color_16_16_mix u c1 c2 w))) ∧
    ((red16 c2 ≤ red16 c1 →
        red16 (lv_color_16_16_mix u c1 c2 w) ≤ red16 (lv_color_16_16_mix u c1 c2 w2)) ∧
      (red16 c1 ≤ red16 c2 →
        red16 (lv_color_16_16_mix u c1 c2 w2) ≤ red16 (lv_color_16_16_mix u c1 c2 w))) := by
  have hw : w < 256 := by omega
  have hmn : (w + 4) / 8 ≤ (w2 + 4) / 8 := by omega
  have hn : (w2 + 4) / 8 ≤ 32 := by omega
  have hm : (w + 4) / 8 ≤ 32 := by omega
  obtain ⟨hb, hg, hr⟩ := mix_reference_channels c1 c2 ((w + 4) / 8) hm
  obtain ⟨hb2, hg2, hr2⟩ := mix_reference_channels c1 c2 ((w2 + 4) / 8) hn
  rw [mix_eq_reference u c1 c2 w hc1 hc2 hw, mix_eq_reference u c1 c2 w2 hc1 hc2 hw2,
    hb, hg, hr, hb2, hg2, hr2]
  exact ⟨mix_channel_mono _ _ _ _ hmn hn, mix_channel_mono _ _ _ _ hmn hn,
    mix_channel_mono _ _ _ _ hmn hn⟩

/-- Witness for C18 in the packed-multiply variant at `c1 = 0xFC00`, `c2 = 0x1234`, weights
100 and 200. -/
theorem C18_mix_monotone_witness :
    ((blue16 0x1234 ≤ blue16 0xFC00 →
        blue16 (lv_color_16_16_mix 0 0xFC00 0x1234 100)
          ≤ blue16 (lv_color_16_16_mix 0 0xFC00 0x1234 200)) ∧
      (blue16 0xFC00 ≤ blue16 0x1234 →
        blue16 (lv_color_16_16_mix 0 0xFC00 0x1234 200)
          ≤ blue16 (lv_color_16_16_mix 0 0xFC00 0x1234 100))) ∧
    ((green16 0x1234 ≤ green16 0xFC00 →
        green16 (lv_color_16_16_mix 0 0xFC00 0x1234 100)
          ≤ green16 (lv_color_16_16_mix 0 0xFC00 0x1234 200)) ∧
      (green16 0xFC00 ≤ green16 0x1234 →
        green16 (lv_color_16_16_mix 0 0xFC00 0x1234 200)
          ≤ green16 (lv_color_16_16_mix 0 0xFC00 0x1234 100))) ∧
    ((red16 0x1234 ≤ red16 0xFC00 →
        red16 (lv_color_16_16_mix 0 0xFC00 0x1234 100)
          ≤ red16 (lv_color_16_16_mix 0 0xFC00 0x1234 200)) ∧
      (red16 0xFC00 ≤ red16 0x1234 →
        red16 (lv_color_16_16_mix 0 0xFC00 0x1234 200)
          ≤ red16 (lv_color_16_16_mix 0 0xFC00 0x1234 100))) :=
  C18_mix_monotone 0 0xFC00 0x1234 100 200 (by decide) (by decide) (by decide) (by decide)


theorem i32_of_small (x : Int) (h0 : 0 ≤ x) (h1 : x < 2147483648) : i32 x = x := by
  unfold i32
  omega

/-- C19: for 8-bit opacities, `LV_OPA_MIX2 a1 a2` is `floor(a1 * a2 / 256)` and
`LV_OPA_MIX3 a1 a2 a3` is `floor(a1 * a2 * a3 / 65536)`; no intermediate product leaves the
`int32_t` range; the result never exceeds any operand and is strictly below the smallest operand
when that is non-zero. Hence `LV_OPA_MIX2 a LV_OPA_COVER = a - 1` for `a` in 1..255, and
`LV_OPA_MIX2 255 255 = 254`. -/
theorem C19_opa_mix (a1 a2 a3 : Nat) (h1 : a1 < 256) (h2 : a2 < 256) (h3 : a3 < 256) :
    (LV_OPA_MIX2 a1 a2 = ((a1 * a2 / 256 : Nat) : Int) ∧
      LV_OPA_MIX3 a1 a2 a3 = ((a1 * a2 * a3 / 65536 : Nat) : Int)) ∧
    (i32 a1 = a1 ∧ i32 (i32 a1 * a2) = (a1 : Int) * a2 ∧
      i32 (i32 (i32 a1 * a2) * a3) = (a1 : Int) * a2 * a3 ∧
      (a1 : Int) * a2 < 2147483648 ∧ (a1 : Int) * a2 * a3 < 2147483648) ∧
    (0 ≤ LV_OPA_MIX2 a1 a2 ∧ LV_OPA_MIX2 a1 a2 ≤ ((min a1 a2 : Nat) : Int) ∧
      0 ≤ LV_OPA_MIX3 a1 a2 a3 ∧ LV_OPA_MIX3 a1 a2 a3 ≤ ((min a1 (min a2 a3) : Nat) : Int) ∧
      LV_OPA_MIX2 a1 a2 < 256 ∧ LV_OPA_MIX3 a1 a2 a3 < 256) ∧
    (0 < min a1 a2 → LV_OPA_MIX2 a1 a2 < ((min a1 a2 : Nat) : Int)) ∧
    (0 < min a1 (min a2 a3) → LV_OPA_MIX3 a1 a2 a3 < ((min a1 (min a2 a3) : Nat) : Int)) ∧
    (1 ≤ a1 → LV_OPA_MIX2 a1 (LV_OPA_COVER : Nat) = (a1 : Int) - 1) ∧
    LV_OPA_MIX2 255 255 = 254 := by
  have p2a : a1 * a2 ≤ 255 * a1 := by
    rw [Nat.mul_comm 255]
    exact Nat.mul_le_mul_left a1 (by omega)
  have p2b : a1 * a2 ≤ 255 * a2 := Nat.mul_le_mul_right a2 (by omega)
  have p3c : a1 * a2 * a3 ≤ 255 * a2 * a3 := Nat.mul_le_mul_right a3 p2b
  have p3c2 : 255 * a2 * a3 ≤ 255 * 255 * a3 :=
    Nat.mul_le_mul_right a3 (Nat.mul_le_mul_left 255 (by omega))
  have p3a : a1 * a2 * a3 ≤ 65025 * a1 := by
    have : a1 * a2 * a3 ≤ 255 * a1 * 255 := Nat.mul_le_mul p2a (by omega)
    omega
  have p3b : a1 * a2 * a3 ≤ 65025 * a2 := by
    have : a1 * a2 * a3 ≤ 255 * a2 * 255 := Nat.mul_le_mul p2b (by omega)
    omega
  have c2 : ((a1 : Int) * a2) = ((a1 * a2 : Nat) : Int) := by push_cast; rfl
  have c3 : ((a1 : Int) * a2 * a3) = ((a1 * a2 * a3 : Nat) : Int) := by push_cast; rfl
  have e1 : i32 a1 = a1 := i32_of_small _ (by omega) (by omega)
  have e2 : i32 (i32 a1 * a2) = (a1 : Int) * a2 := by
    rw [e1, c2]
    exact i32_of_small _ (by omega) (by omega)
  have e3 : i32 (i32 (i32 a1 * a2) * a3) = (a1 : Int) * a2 * a3 := by
    rw [e2, c3]
    exact i32_of_small _ (by omega) (by omega)
  have m2 : LV_OPA_MIX2 a1 a2 = ((a1 * a2 / 256 : Nat) : Int) := by
    unfold LV_OPA_MIX2
    rw [e2, c2, Int.shiftRight_eq_div_pow]
    exact (Int.ofNat_ediv (a1 * a2) 256).symm
  have m3 : LV_OPA_MIX3 a1 a2 a3 = ((a1 * a2 * a3 / 65536 : Nat) : Int) := by
    unfold LV_OPA_MIX3
    rw [e3, c3, Int.shiftRight_eq_div_pow]
    exact (Int.ofNat_ediv (a1 * a2 * a3) 65536).symm
  have mc : 1 ≤ a1 → LV_OPA_MIX2 a1 (LV_OPA_COVER : Nat) = (a1 : Int) - 1 := by
    intro h
    have e : i32 (i32 a1 * (LV_OPA_COVER : Nat)) = ((a1 * 255 : Nat) : Int) := by
      rw [e1]
      unfold LV_OPA_COVER
      have : ((a1 : Int) * ((255 : Nat) : Int)) = ((a1 * 255 : Nat) : Int) := by push_cast; rfl
      rw [this]
      exact i32_of_small _ (by omega) (by omega)
    unfold LV_OPA_MIX2
    rw [e, Int.shiftRight_eq_div_pow, ← Int.ofNat_ediv (a1 * 255) (2 ^ 8)]
    simp only [Nat.reducePow]
    omega
  refine ⟨⟨m2, m3⟩, ⟨e1, e2, e3, by rw [c2]; omega, by rw [c3]; omega⟩, ?_, ?_, ?_, mc,
    by decide⟩
  · rw [m2, m3]
    generalize a1 * a2 * a3 = q at p3a p3b p3c p3c2
    generalize a1 * a2 = p at p2a p2b
    omega
  · intro h
    rw [m2]
    generalize a1 * a2 = p at p2a p2b
    omega
  · intro h
    rw [m3]
    generalize a1 * a2 * a3 = q at p3a p3b p3c p3c2
    generalize 255 * a2 * a3 = r at p3c p3c2
    omega

/-- Witness for C19 at opacities 128, 200 and 255. -/
theorem C19_opa_mix_witness :
    (LV_OPA_MIX2 (128 : Nat) (200 : Nat) = ((128 * 200 / 256 : Nat) : Int) ∧
      LV_OPA_MIX3 (128 : Nat) (200 : Nat) (255 : Nat) = ((128 * 200 * 255 / 65536 : Nat) : Int)) ∧
    (i32 (128 : Nat) = (128 : Nat) ∧ i32 (i32 (128 : Nat) * (200 : Nat)) = ((128 : Nat) : Int) * (200 : Nat) ∧
      i32 (i32 (i32 (128 : Nat) * (200 : Nat)) * (255 : Nat)) = ((128 : Nat) : Int) * (200 : Nat) * (255 : Nat) ∧
      ((128 : Nat) : Int) * (200 : Nat) < 2147483648 ∧
      ((128 : Nat) : Int) * (200 : Nat) * (255 : Nat) < 2147483648) ∧
    (0 ≤ LV_OPA_MIX2 (128 : Nat) (200 : Nat) ∧
      LV_OPA_MIX2 (128 : Nat) (200 : Nat) ≤ ((min 128 200 : Nat) : Int) ∧
      0 ≤ LV_OPA_MIX3 (128 : Nat) (200 : Nat) (255 : Nat) ∧
      LV_OPA_MIX3 (128 : Nat) (200 : Nat) (255 : Nat) ≤ ((min 128 (min 200 255) : Nat) : Int) ∧
      LV_OPA_MIX2 (128 : Nat) (200 : Nat) < 256 ∧
      LV_OPA_MIX3 (128 : Nat) (200 : Nat) (255 : Nat) < 256) ∧
    (0 < min 128 200 → LV_OPA_MIX2 (128 : Nat) (200 : Nat) < ((min 128 200 : Nat) : Int)) ∧
    (0 < min 128 (min 200 255) →
      LV_OPA_MIX3 (128 : Nat) (200 : Nat) (255 : Nat) < ((min 128 (min 200 255) : Nat) : Int)) ∧
    (1 ≤ 128 → LV_OPA_MIX2 (128 : Nat) (LV_OPA_COVER : Nat) = ((128 : Nat) : Int) - 1) ∧
    LV_OPA_MIX2 255 255 = 254 :=
  C19_opa_mix 128 200 255 (by decide) (by decide) (by decide)

/-- C20: the named opacity levels are the truncated tenths of 255, `LV_OPA_<10n>` being
`floor(255 * n / 10)` for `n` in 0..10, that is 0, 25, 51, 76, 102, 127, 153, 178, 204, 229,
255; they increase strictly; `LV_OPA_TRANSP = LV_OPA_0 = 0` and `LV_OPA_COVER = LV_OPA_100 =
255`; `LV_OPA_0` is the only level below `LV_OPA_MIN` and `LV_OPA_100` the only one above
`LV_OPA_MAX`. -/
theorem C20_opa_levels :
    lv_opa_levels = (List.range 11).map (fun n => 255 * n / 10) ∧
    lv_opa_levels = [0, 25, 51, 76, 102, 127, 153, 178, 204, 229, 255] ∧
    List.Pairwise (fun a b => a < b) lv_opa_levels ∧
    (LV_OPA_TRANSP = LV_OPA_0 ∧ LV_OPA_0 = 0 ∧ LV_OPA_COVER = LV_OPA_100 ∧ LV_OPA_100 = 255) ∧
    lv_opa_levels.filter (fun a => decide (a < LV_OPA_MIN)) = [LV_OPA_0] ∧
    lv_opa_levels.filter (fun a => decide (LV_OPA_MAX < a)) = [LV_OPA_100] := by
  refine ⟨by decide, by decide, by decide, by decide, by decide, by decide⟩

end LvColor
